import Mathlib

/-!
# FootstepNavigation: the execution supervisor of the footstep planner

A shallow embedding of `footstep_planner/src/FootstepNavigation.cpp`.

Modelling conventions

* `double` values are rationals: rounding, infinities and NaN are outside the model.
* `int` members are integers.  Signed overflow is undefined in C++, so signed sums are
  exact; the one defined narrowing conversion (`size_t` to `int` in `feedbackCallback`)
  is modelled with an explicit wrap to 32 bits.
* The planner object is an abstract value of type `P`, changed only by the planner's own
  operations.  Every other collaborator (tf, the clipping service, the step service, the
  action client, the clock) answers as a function of the interaction history, which the
  supervisor state carries as `trace`; every call to a collaborator appends one `Event`.
* Starting a `boost::thread` on `executeFootsteps` appends `Event.thread_executeFootsteps`;
  the body of the new thread is the function `executeFootsteps` applied later.
* Reading through an iterator outside the path is undefined; `feedbackCallback` returns
  `none` there, and `getFootstepsFromPath` takes the range condition as an argument.
-/

namespace footstep_planner

/-! ## Data model -/

/-- Modelled from the spec: the enumeration `Leg` is declared outside this file;
the spec gives it the two values Left and Right. -/
inductive Leg where
  | RIGHT
  | LEFT
  deriving DecidableEq, Repr

/-- Modelled from the spec: the planner class `State` is declared outside this file;
the spec gives it the fields x, y, theta and leg (read by getX, getY, getTheta, getLeg). -/
structure State where
  x : ℚ
  y : ℚ
  theta : ℚ
  leg : Leg
  deriving DecidableEq, Repr

/-- The message geometry_msgs::Pose2D. -/
structure Pose2D where
  x : ℚ
  y : ℚ
  theta : ℚ
  deriving DecidableEq, Repr

/-- Modelled from the spec: the message humanoid_nav_msgs::StepTarget is declared outside
this file; the spec's StepCommand has dx, dy, dtheta (here the field `pose`) and a leg
that is Left or Right. -/
structure StepTarget where
  pose : Pose2D
  leg : Leg
  deriving DecidableEq, Repr

/-- The constant humanoid_nav_msgs::StepTarget::left. -/
def StepTarget.left : Leg := Leg.LEFT

/-- The constant humanoid_nav_msgs::StepTarget::right. -/
def StepTarget.right : Leg := Leg.RIGHT

/-- A tf::Vector3 / tf::Point. -/
structure Vector3 where
  x : ℚ
  y : ℚ
  z : ℚ
  deriving DecidableEq, Repr

/-- A tf::Quaternion. -/
structure Quaternion where
  x : ℚ
  y : ℚ
  z : ℚ
  w : ℚ
  deriving DecidableEq, Repr

/-- A tf::Transform (also tf::Pose), read through getOrigin and getRotation. -/
structure Transform where
  origin : Vector3
  rotation : Quaternion
  deriving DecidableEq, Repr

/-- The goal message humanoid_nav_msgs::ExecFootstepsGoal. -/
structure ExecFootstepsGoal where
  footsteps : List StepTarget
  feedback_frequence : ℚ
  deriving DecidableEq, Repr

/-- The feedback message humanoid_nav_msgs::ExecFootstepsFeedback. -/
structure ExecFootstepsFeedback where
  executed_footsteps : List StepTarget
  deriving DecidableEq, Repr

/-- The terminal states of actionlib::SimpleClientGoalState. -/
inductive SimpleClientGoalState where
  | PENDING
  | ACTIVE
  | RECALLED
  | REJECTED
  | PREEMPTED
  | ABORTED
  | SUCCEEDED
  | LOST
  deriving DecidableEq, Repr

/-- The goal message geometry_msgs::PoseStamped, reduced to the fields that are read. -/
structure PoseStamped where
  position : Vector3
  orientation : Quaternion
  deriving DecidableEq, Repr

/-- A ros::Time. -/
abbrev Time := ℕ

/-- One call to an external collaborator, with its arguments and its answer. -/
inductive Event where
  | setGoal (x y theta : ℚ) (ok : Bool)
  | setStart (left right : State) (ok : Bool)
  | plan (ok : Bool)
  | replan (ok : Bool)
  | getFootTransform (foot_id world_frame_id : String) (time : Time) (foot : Transform)
  | clipFootstep (request response : StepTarget)
  | footstepSrv (step : StepTarget)
  | waitForServer
  | sendGoal (goal : ExecFootstepsGoal)
  | cancelGoal
  | thread_executeFootsteps
  deriving DecidableEq, Repr

/-- The parameters read once by the constructor. -/
structure Config where
  ivIdFootRight : String
  ivIdFootLeft : String
  ivAccuracyX : ℚ
  ivAccuracyY : ℚ
  ivAccuracyTheta : ℚ
  ivFeedbackFrequency : ℚ
  ivProtectiveExecution : Bool
  ivExecutionShift : ℤ

/-- The external collaborators.  `P` is the planner object. -/
structure Env (P : Type) where
  /-- ivPlanner.setGoal (the narrowing of its arguments to float is the planner's) -/
  setGoal : P → ℚ → ℚ → ℚ → Bool × P
  /-- ivPlanner.setStart -/
  setStart : P → State → State → Bool × P
  /-- ivPlanner.plan -/
  plan : P → Bool × P
  /-- ivPlanner.replan -/
  replan : P → Bool × P
  /-- the states from ivPlanner.getPathBegin() up to ivPlanner.getPathEnd() -/
  getPath : P → List State
  /-- ivPlanner.getStartFootLeft -/
  getStartFootLeft : P → State
  /-- ivPlanner.getStartFootRight -/
  getStartFootRight : P → State
  /-- ros::Time::now -/
  now : List Event → Time
  /-- waitForTransform followed by lookupTransform; none when a TransformException is thrown -/
  lookupTransform : List Event → String → String → Time → Option Transform
  /-- the content of a default-constructed tf::StampedTransform -/
  defaultTransform : List Event → Transform
  /-- tf::getYaw -/
  getYaw : Quaternion → ℚ
  /-- tf::createQuaternionFromYaw -/
  createQuaternionFromYaw : ℚ → Quaternion
  /-- angles::shortest_angular_distance -/
  shortest_angular_distance : ℚ → ℚ → ℚ
  /-- the helper get_footstep (from x, y, theta, leg; to x, y, theta) -/
  get_footstep : ℚ → ℚ → ℚ → Leg → ℚ → ℚ → ℚ → ℚ × ℚ × ℚ
  /-- the response of clip_footstep_srv to a request -/
  clipFootstep : List Event → StepTarget → StepTarget

/-- The mutable members of FootstepNavigation, and the interaction history. -/
structure Navigation (P : Type) where
  ivPlanner : P
  ivExecutingFootsteps : Bool
  ivControlStepIdx : ℤ
  ivResetStepIdx : ℤ
  ivEqualStepsNum : ℤ
  ivLastStepValid : Bool
  ivLastRobotTime : Time
  ivIdMapFrame : String
  trace : List Event

variable {P : Type}

/-- Record one call to a collaborator. -/
def Navigation.emit (s : Navigation P) (e : Event) : Navigation P :=
  { s with trace := s.trace ++ [e] }

/-! ## Tolerance checker -/

/-- FootstepNavigation::performanceValid(const ClipFootstep&), on the request and the
response of the service call. -/
def performanceValidClip (env : Env P) (cfg : Config) (request response : StepTarget) : Bool :=
  decide (|request.pose.x - response.pose.x| ≤ cfg.ivAccuracyX) &&
  decide (|request.pose.y - response.pose.y| ≤ cfg.ivAccuracyY) &&
  decide (|env.shortest_angular_distance request.pose.theta response.pose.theta|
            ≤ cfg.ivAccuracyTheta) &&
  decide (request.leg = response.leg)

/-- FootstepNavigation::performanceValid(const State&, const State&). -/
def performanceValid (env : Env P) (cfg : Config) (planned executed : State) : Bool :=
  decide (|planned.x - executed.x| ≤ cfg.ivAccuracyX) &&
  decide (|planned.y - executed.y| ≤ cfg.ivAccuracyY) &&
  decide (|env.shortest_angular_distance planned.theta executed.theta|
            ≤ cfg.ivAccuracyTheta) &&
  decide (planned.leg = executed.leg)

/-! ## Pose source -/

/-- FootstepNavigation::getFootTransform: the looked-up transform, or the untouched
default-constructed one when the lookup throws. -/
def getFootTransform (env : Env P) (foot_id world_frame_id : String) (time : Time)
    (s : Navigation P) : Transform × Navigation P :=
  let foot := (env.lookupTransform s.trace world_frame_id foot_id time).getD
    (env.defaultTransform s.trace)
  (foot, s.emit (Event.getFootTransform foot_id world_frame_id time foot))

/-! ## Footstep computer -/

/-- The first half of FootstepNavigation::getFootstep: the footstep written to the
request of the clipping service. -/
def rawFootstep (env : Env P) (from_pose : Transform) (to_state : State) : StepTarget :=
  let from_leg := if to_state.leg = Leg.LEFT then Leg.RIGHT else Leg.LEFT
  let fs := env.get_footstep from_pose.origin.x from_pose.origin.y
    (env.getYaw from_pose.rotation) from_leg to_state.x to_state.y to_state.theta
  if to_state.leg = Leg.LEFT then
    { pose := { x := fs.1, y := fs.2.1, theta := fs.2.2 }, leg := StepTarget.left }
  else
    { pose := { x := fs.1, y := -fs.2.1, theta := -fs.2.2 }, leg := StepTarget.right }

/-- FootstepNavigation::getFootstep: the return value, the content of the out-parameter
`footstep`, and the state after the service call. -/
def getFootstep (env : Env P) (cfg : Config) (from_pose : Transform) (to_state : State)
    (s : Navigation P) : Bool × StepTarget × Navigation P :=
  let footstep := rawFootstep env from_pose to_state
  let response := env.clipFootstep s.trace footstep
  let s1 := s.emit (Event.clipFootstep footstep response)
  if performanceValidClip env cfg footstep response then
    (true, { footstep with pose := response.pose }, s1)
  else
    (false, footstep, s1)

/-- Modelled from the spec: the helper get_footstep is defined outside this file.  The
spec: the target pose expressed relative to the from pose, by rotating the pose delta
into the frame of the from pose; the leg takes no part.  `cosf` and `sinf` stand for
the cosine and sine of the C library. -/
def get_footstep (cosf sinf : ℚ → ℚ) (from_x from_y from_theta : ℚ) (_from_leg : Leg)
    (to_x to_y to_theta : ℚ) : ℚ × ℚ × ℚ :=
  let dx := to_x - from_x
  let dy := to_y - from_y
  (cosf from_theta * dx + sinf from_theta * dy,
   -(sinf from_theta) * dx + cosf from_theta * dy,
   to_theta - from_theta)

/-- FootstepNavigation::getFootstepsFromPath, the for loop: `last` is the pose the next
footstep starts from, the list holds the states from `current` up to getPathEnd(). -/
def getFootstepsFromPath.loop (env : Env P) (cfg : Config) :
    Transform → List State → List StepTarget → Navigation P →
      Bool × List StepTarget × Navigation P
  | _, [], footsteps, s => (true, footsteps, s)
  | last, current :: rest, footsteps, s =>
    let r := getFootstep env cfg last current s
    if r.1 then
      getFootstepsFromPath.loop env cfg
        { origin := { x := current.x, y := current.y, z := 0 },
          rotation := env.createQuaternionFromYaw current.theta }
        rest (footsteps ++ [r.2.1]) r.2.2
    else
      (false, footsteps, r.2.2)

/-- FootstepNavigation::getFootstepsFromPath: the return value, the vector `footsteps`
and the state afterwards.  The iterator getPathBegin() + starting_step_num has to lie
within the path. -/
def getFootstepsFromPath (env : Env P) (cfg : Config) (current_support_leg : State)
    (starting_step_num : ℤ) (footsteps : List StepTarget) (s : Navigation P)
    (_h : 0 ≤ starting_step_num ∧
      starting_step_num ≤ ((env.getPath s.ivPlanner).length : ℤ)) :
    Bool × List StepTarget × Navigation P :=
  getFootstepsFromPath.loop env cfg
    { origin := { x := current_support_leg.x, y := current_support_leg.y, z := 0 },
      rotation := env.createQuaternionFromYaw current_support_leg.theta }
    ((env.getPath s.ivPlanner).drop starting_step_num.toNat) footsteps s

/-! ## Navigation supervisor -/

/-- FootstepNavigation::setGoal(const PoseStampedConstPtr&). -/
def setGoal (env : Env P) (goal_pose : PoseStamped) (s : Navigation P) :
    Bool × Navigation P :=
  let theta := env.getYaw goal_pose.orientation
  let r := env.setGoal s.ivPlanner goal_pose.position.x goal_pose.position.y theta
  (r.1, ({ s with ivPlanner := r.2 }).emit
    (Event.setGoal goal_pose.position.x goal_pose.position.y theta r.1))

/-- FootstepNavigation::updateStart. -/
def updateStart (env : Env P) (cfg : Config) (s : Navigation P) : Bool × Navigation P :=
  let fl := getFootTransform env cfg.ivIdFootLeft s.ivIdMapFrame s.ivLastRobotTime s
  let fr := getFootTransform env cfg.ivIdFootRight fl.2.ivIdMapFrame fl.2.ivLastRobotTime fl.2
  let left : State :=
    { x := fl.1.origin.x, y := fl.1.origin.y, theta := env.getYaw fl.1.rotation,
      leg := Leg.LEFT }
  let right : State :=
    { x := fr.1.origin.x, y := fr.1.origin.y, theta := env.getYaw fr.1.rotation,
      leg := Leg.RIGHT }
  let r := env.setStart fr.2.ivPlanner left right
  (r.1, ({ fr.2 with ivPlanner := r.2 }).emit (Event.setStart left right r.1))

/-- The call ivPlanner.plan(). -/
def plan (env : Env P) (s : Navigation P) : Bool × Navigation P :=
  let r := env.plan s.ivPlanner
  (r.1, ({ s with ivPlanner := r.2 }).emit (Event.plan r.1))

/-- The call ivPlanner.replan(). -/
def replan (env : Env P) (s : Navigation P) : Bool × Navigation P :=
  let r := env.replan s.ivPlanner
  (r.1, ({ s with ivPlanner := r.2 }).emit (Event.replan r.1))

/-- FootstepNavigation::executeFootsteps_alt. -/
def executeFootsteps_alt (env : Env P) (cfg : Config) (s : Navigation P) : Navigation P :=
  if h : (env.getPath s.ivPlanner).length ≤ 1 then s
  else
    let s1 := s.emit Event.waitForServer
    let support_leg :=
      if (env.getPath s1.ivPlanner).head?.map State.leg = some Leg.RIGHT then
        env.getStartFootRight s1.ivPlanner
      else
        env.getStartFootLeft s1.ivPlanner
    let r := getFootstepsFromPath env cfg support_leg 1 [] s1
      ⟨by decide, by dsimp only [s1, Navigation.emit]; omega⟩
    if r.1 then
      ({ r.2.2 with
          ivEqualStepsNum := 0, ivControlStepIdx := 0, ivResetStepIdx := 0,
          ivLastStepValid := false }).emit
        (Event.sendGoal
          { footsteps := r.2.1, feedback_frequence := cfg.ivFeedbackFrequency })
    else
      { r.2.2 with ivExecutingFootsteps := false }

/-- FootstepNavigation::run. -/
def run (env : Env P) (cfg : Config) (s : Navigation P) : Navigation P :=
  let p := plan env { s with ivExecutingFootsteps := true }
  if p.1 then
    if cfg.ivProtectiveExecution then
      p.2.emit Event.thread_executeFootsteps
    else
      executeFootsteps_alt env cfg p.2
  else
    { p.2 with ivExecutingFootsteps := false }

/-- FootstepNavigation::executeFootsteps, the else branch inside the while loop
("Footstep cannot be performed. Replanning necessary"), up to its return. -/
def executeFootsteps.replanning (env : Env P) (cfg : Config) (s : Navigation P) :
    Navigation P :=
  let u := updateStart env cfg s
  if u.1 then
    let p := replan env u.2
    if p.1 then
      p.2.emit Event.thread_executeFootsteps
    else
      run env cfg p.2
  else
    u.2

/-- FootstepNavigation::executeFootsteps, the local `support_foot_id` for the waypoint
`to_planned`: the foot that is not moved. -/
def executeFootsteps.support_foot_id (cfg : Config) (to_planned : State) : String :=
  if to_planned.leg = Leg.LEFT then cfg.ivIdFootRight else cfg.ivIdFootLeft

/-- FootstepNavigation::executeFootsteps, the while loop over the states from
`to_planned` up to getPathEnd().  The first component is true when the loop ran through
all states and false when the function returned from inside it. -/
def executeFootsteps.loop (env : Env P) (cfg : Config) :
    List State → Navigation P → Bool × Navigation P
  | [], s => (true, s)
  | to_planned :: rest, s =>
    let f := getFootTransform env (executeFootsteps.support_foot_id cfg to_planned)
      s.ivIdMapFrame (env.now s.trace) s
    let r := getFootstep env cfg f.1 to_planned f.2
    if r.1 then
      executeFootsteps.loop env cfg rest (r.2.2.emit (Event.footstepSrv r.2.1))
    else
      (false, executeFootsteps.replanning env cfg r.2.2)

/-- FootstepNavigation::executeFootsteps. -/
def executeFootsteps (env : Env P) (cfg : Config) (s : Navigation P) : Navigation P :=
  if (env.getPath s.ivPlanner).length ≤ 1 then s
  else
    let s1 := { s with ivExecutingFootsteps := true }
    match env.getPath s1.ivPlanner with
    | [] => s1
    | _ :: rest =>
      let r := executeFootsteps.loop env cfg rest s1
      if r.1 then { r.2 with ivExecutingFootsteps := false } else r.2

/-- FootstepNavigation::activeCallback. -/
def activeCallback (s : Navigation P) : Navigation P :=
  { s with ivExecutingFootsteps := true }

/-- FootstepNavigation::doneCallback. -/
def doneCallback (_state : SimpleClientGoalState) (s : Navigation P) : Navigation P :=
  { s with ivExecutingFootsteps := false }

/-- Conversion of a value to `int`: reduction to 32 bits, two's complement. -/
def wrapInt32 (z : ℤ) : ℤ := (z + 2 ^ 31) % 2 ^ 32 - 2 ^ 31

/-- The local `executed_steps_idx` of feedbackCallback:
fb->executed_footsteps.size() - ivExecutionShift, stored in an int. -/
def executed_steps_idx (cfg : Config) (fb : ExecFootstepsFeedback) : ℤ :=
  wrapInt32 ((fb.executed_footsteps.length : ℤ) - cfg.ivExecutionShift)

/-- FootstepNavigation::feedbackCallback; `none` when an iterator leaves the path. -/
def feedbackCallback (env : Env P) (cfg : Config) (fb : ExecFootstepsFeedback)
    (s : Navigation P) : Option (Navigation P) :=
  let idx := executed_steps_idx cfg fb
  if idx < 0 then some s
  else if idx = s.ivControlStepIdx then some s
  else
    let i := s.ivControlStepIdx + 1 + s.ivResetStepIdx
    if i < 0 then none
    else
      match (env.getPath s.ivPlanner)[i.toNat]? with
      | none => none
      | some planned =>
        let foot_id :=
          if planned.leg = Leg.RIGHT then cfg.ivIdFootRight else cfg.ivIdFootLeft
        let f := getFootTransform env foot_id s.ivIdMapFrame (env.now s.trace) s
        let executed : State :=
          { x := f.1.origin.x, y := f.1.origin.y, theta := env.getYaw f.1.rotation,
            leg := planned.leg }
        if idx ≥ s.ivControlStepIdx + 2 then
          let s1 := f.2.emit Event.cancelGoal
          if h : 0 ≤ idx + s1.ivResetStepIdx ∧
              idx + s1.ivResetStepIdx ≤ ((env.getPath s1.ivPlanner).length : ℤ) then
            let r := getFootstepsFromPath env cfg executed (idx + s1.ivResetStepIdx) [] s1 h
            if r.1 then
              some (({ r.2.2 with
                  ivResetStepIdx := r.2.2.ivResetStepIdx + (r.2.2.ivControlStepIdx + 1),
                  ivControlStepIdx := 0 }).emit
                (Event.sendGoal { footsteps := r.2.1, feedback_frequence := 0 }))
            else
              let u := updateStart env cfg r.2.2
              if u.1 then
                let p := replan env u.2
                if p.1 then
                  some (executeFootsteps_alt env cfg p.2)
                else
                  some (run env cfg p.2)
              else
                some u.2
          else none
        else
          if performanceValid env cfg planned executed then
            some { f.2 with
              ivControlStepIdx := f.2.ivControlStepIdx + 1, ivEqualStepsNum := 0 }
          else
            some f.2

/-- FootstepNavigation::goalPoseCallback. -/
def goalPoseCallback (env : Env P) (cfg : Config) (goal_pose : PoseStamped)
    (s : Navigation P) : Navigation P :=
  if s.ivExecutingFootsteps then s
  else
    let g := setGoal env goal_pose s
    if g.1 then
      let u := updateStart env cfg g.2
      if u.1 then run env cfg u.2 else u.2
    else
      g.2

/-- FootstepNavigation::robotPoseCallback. -/
def robotPoseCallback (stamp : Time) (s : Navigation P) : Navigation P :=
  { s with ivLastRobotTime := stamp }

/-! ## Interaction histories -/

/-- The calls made between the state `s` and the later state `s1`. -/
def callsSince (s s1 : Navigation P) : List Event :=
  s1.trace.drop s.trace.length

/-- The history of `s1` continues the history of `s`. -/
def Navigation.Extends (s s1 : Navigation P) : Prop :=
  ∃ l, s1.trace = s.trace ++ l

/-- The three calls of one pass of the while loop of executeFootsteps for the waypoint
`wp`: the lookup of the foot opposite to the leg of `wp` (the right foot frame for a left
waypoint, the left foot frame for a right waypoint), asked at time `o.1` and answered
`o.2.1`; the clipping request computed from that answer, with response `o.2.2`; the
dispatch of the step to the step service. -/
def stepCalls (env : Env P) (cfg : Config) (world_frame_id : String) (wp : State)
    (o : Time × Transform × StepTarget) : List Event :=
  [ Event.getFootTransform
      (match wp.leg with
        | Leg.LEFT => cfg.ivIdFootRight
        | Leg.RIGHT => cfg.ivIdFootLeft)
      world_frame_id o.1 o.2.1,
    Event.clipFootstep (rawFootstep env o.2.1 wp) o.2.2,
    Event.footstepSrv o.2.2 ]

/-- The calls of successive passes for the waypoints `wps`, one observation each. -/
def walkCalls (env : Env P) (cfg : Config) (world_frame_id : String) :
    List State → List (Time × Transform × StepTarget) → List Event
  | wp :: wps, o :: os =>
    stepCalls env cfg world_frame_id wp o ++ walkCalls env cfg world_frame_id wps os
  | _, _ => []

/-- The frames asked of the pose source in a history, in order. -/
def footLookups : List Event → List String
  | [] => []
  | Event.getFootTransform foot_id _ _ _ :: es => foot_id :: footLookups es
  | _ :: es => footLookups es

/-- The verdicts of performanceValid on the clipping calls of a history, in order. -/
def clipVerdicts (env : Env P) (cfg : Config) : List Event → List Bool
  | [] => []
  | Event.clipFootstep request response :: es =>
    performanceValidClip env cfg request response :: clipVerdicts env cfg es
  | _ :: es => clipVerdicts env cfg es

/-- The steps sent to the step service in a history, in order. -/
def dispatched : List Event → List StepTarget
  | [] => []
  | Event.footstepSrv step :: es => step :: dispatched es
  | _ :: es => dispatched es

/-- The answers of the ivPlanner.plan() calls of a history, in order. -/
def planAnswers : List Event → List Bool
  | [] => []
  | Event.plan ok :: es => ok :: planAnswers es
  | _ :: es => planAnswers es

/-- The answers of the ivPlanner.replan() calls of a history, in order. -/
def replanAnswers : List Event → List Bool
  | [] => []
  | Event.replan ok :: es => ok :: replanAnswers es
  | _ :: es => replanAnswers es

/-- The answers of the ivPlanner.setStart calls of a history, in order. -/
def setStartAnswers : List Event → List Bool
  | [] => []
  | Event.setStart _ _ ok :: es => ok :: setStartAnswers es
  | _ :: es => setStartAnswers es

/-- The number of executeFootsteps threads started in a history. -/
def threadStarts : List Event → ℕ
  | [] => 0
  | Event.thread_executeFootsteps :: es => threadStarts es + 1
  | _ :: es => threadStarts es

/-- The pose getFootstepsFromPath makes of a state:
tf::Pose(createQuaternionFromYaw(theta), Point(x, y, 0)). -/
def poseOfState (env : Env P) (st : State) : Transform :=
  { origin := { x := st.x, y := st.y, z := 0 },
    rotation := env.createQuaternionFromYaw st.theta }

/-- The clipping calls of the for loop of getFootstepsFromPath: the request for the
first state is computed from `last`, the request for every later state from the pose of
the state before it; `rs` holds the responses, and the calls end with the shorter list. -/
def pathCalls (env : Env P) : Transform → List State → List StepTarget → List Event
  | last, wp :: wps, r :: rs =>
    Event.clipFootstep (rawFootstep env last wp) r ::
      pathCalls env (poseOfState env wp) wps rs
  | _, _, _ => []

/-- FootstepNavigation::executeFootsteps_alt, the local `support_leg`: the start foot of
the planner `p` on the side of the first state of the path. -/
def executeFootsteps_alt.support_leg (env : Env P) (p : P) : State :=
  if (env.getPath p).head?.map State.leg = some Leg.RIGHT then
    env.getStartFootRight p
  else
    env.getStartFootLeft p

/-- The goals sent to the action server in a history, in order. -/
def sentGoals : List Event → List ExecFootstepsGoal
  | [] => []
  | Event.sendGoal goal :: es => goal :: sentGoals es
  | _ :: es => sentGoals es

/-- The number of cancelGoal calls in a history. -/
def cancelCalls : List Event → ℕ
  | [] => 0
  | Event.cancelGoal :: es => cancelCalls es + 1
  | _ :: es => cancelCalls es

/-- FootstepNavigation::feedbackCallback, the local `foot_id`: the foot of the planned
state. -/
def feedbackCallback.foot_id (cfg : Config) (planned : State) : String :=
  if planned.leg = Leg.RIGHT then cfg.ivIdFootRight else cfg.ivIdFootLeft

/-- FootstepNavigation::feedbackCallback, the local `executed`: the looked-up foot
placement with the leg of the planned state. -/
def feedbackCallback.executed (env : Env P) (planned : State) (executed_tf : Transform) :
    State :=
  { x := executed_tf.origin.x, y := executed_tf.origin.y,
    theta := env.getYaw executed_tf.rotation, leg := planned.leg }

/-- FootstepNavigation::run followed by the body of the thread it has started: in
protective mode a successful plan starts a thread on executeFootsteps, which then runs;
otherwise run has itself called executeFootsteps_alt or has given up. -/
def run_then_executor (env : Env P) (cfg : Config) (s : Navigation P) : Navigation P :=
  if (env.plan s.ivPlanner).1 && cfg.ivProtectiveExecution then
    executeFootsteps env cfg (run env cfg s)
  else
    run env cfg s

/-- FootstepNavigation::feedbackCallback, the else branch after a failed
getFootstepsFromPath ("Footstep cannot be performed. Replanning necessary"). -/
def feedbackCallback.replanning (env : Env P) (cfg : Config) (s : Navigation P) :
    Navigation P :=
  let u := updateStart env cfg s
  if u.1 then
    let p := replan env u.2
    if p.1 then
      executeFootsteps_alt env cfg p.2
    else
      run env cfg p.2
  else
    u.2

/-! ## Concrete instances -/

/-- A planner without state whose path is `path` and whose calls answer as given; tf
knows the left foot at (1, 1) and throws for every other frame; the clipping service shifts x by one for the requests selected by `clipBad`
and returns every other request as it is. -/
def exampleEnv (path : List State) (clipBad : StepTarget → Bool)
    (goalOk startOk planOk replanOk : Bool) : Env Unit where
  setGoal := fun p _ _ _ => (goalOk, p)
  setStart := fun p _ _ => (startOk, p)
  plan := fun p => (planOk, p)
  replan := fun p => (replanOk, p)
  getPath := fun _ => path
  getStartFootLeft := fun _ => { x := 0, y := 1, theta := 0, leg := Leg.LEFT }
  getStartFootRight := fun _ => { x := 0, y := 0, theta := 0, leg := Leg.RIGHT }
  now := fun h => h.length
  lookupTransform := fun _ _ foot_id _ =>
    if foot_id = "/l_sole" then
      some { origin := { x := 1, y := 1, z := 0 },
             rotation := { x := 0, y := 0, z := 0, w := 1 } }
    else none
  defaultTransform := fun _ =>
    { origin := { x := 0, y := 0, z := 0 }, rotation := { x := 0, y := 0, z := 0, w := 1 } }
  getYaw := fun q => q.z
  createQuaternionFromYaw := fun t => { x := 0, y := 0, z := t, w := 1 }
  shortest_angular_distance := fun a b => b - a
  get_footstep := fun fx fy ft _ tx ty tt => (tx - fx, ty - fy, tt - ft)
  clipFootstep := fun _ r =>
    if clipBad r then { r with pose := { r.pose with x := r.pose.x + 1 } } else r

/-- The default parameters of the constructor. -/
def exampleCfg : Config where
  ivIdFootRight := "/r_sole"
  ivIdFootLeft := "/l_sole"
  ivAccuracyX := 1 / 200
  ivAccuracyY := 1 / 200
  ivAccuracyTheta := 1 / 20
  ivFeedbackFrequency := 5
  ivProtectiveExecution := true
  ivExecutionShift := 2

/-- The default parameters with protective_execution switched off. -/
def exampleCfgAlt : Config :=
  { exampleCfg with ivProtectiveExecution := false }

/-- The members as the constructor leaves them, with the execution lock as given. -/
def exampleNav (executing : Bool) : Navigation Unit where
  ivPlanner := ()
  ivExecutingFootsteps := executing
  ivControlStepIdx := -1
  ivResetStepIdx := 0
  ivEqualStepsNum := -1
  ivLastStepValid := true
  ivLastRobotTime := 0
  ivIdMapFrame := "map"
  trace := []

/-- A path of three states with the legs Right, Left, Right. -/
def examplePath : List State :=
  [ { x := 0, y := 0, theta := 0, leg := Leg.RIGHT },
    { x := 1, y := 1, theta := 0, leg := Leg.LEFT },
    { x := 2, y := 0, theta := 0, leg := Leg.RIGHT } ]

/-- A goal pose. -/
def exampleGoal : PoseStamped where
  position := { x := 1, y := 2, z := 0 }
  orientation := { x := 0, y := 0, z := 0, w := 1 }

/-- The members after executeFootsteps_alt has sent a goal and activeCallback has run. -/
def exampleActive : Navigation Unit :=
  { exampleNav true with
    ivControlStepIdx := 0, ivResetStepIdx := 0, ivEqualStepsNum := 0,
    ivLastStepValid := false }

/-- A feedback message that reports `n` executed footsteps. -/
def exampleFeedback (n : ℕ) : ExecFootstepsFeedback where
  executed_footsteps :=
    List.replicate n { pose := { x := 0, y := 0, theta := 0 }, leg := Leg.LEFT }

/-- The identity transform. -/
def exampleTransform : Transform where
  origin := { x := 0, y := 0, z := 0 }
  rotation := { x := 0, y := 0, z := 0, w := 1 }

/-! ## Theorems -/

section Footstep

variable (env : Env P) (cfg : Config)

/-- C1: when ivExecutingFootsteps is set, goalPoseCallback returns the state it was
given: no member changes and the interaction history gains no call (no planner call, no
pose lookup, no service or action call). -/
theorem goalPoseCallback_locked (goal_pose : PoseStamped) (s : Navigation P)
    (h : s.ivExecutingFootsteps = true) :
    goalPoseCallback env cfg goal_pose s = s := by
  simp [goalPoseCallback, h]

/-- Witness of C1 on the locked example state. -/
theorem goalPoseCallback_locked_witness :
    (exampleNav true).ivExecutingFootsteps = true ∧
      goalPoseCallback (exampleEnv examplePath (fun _ => false) true true true true)
        exampleCfg exampleGoal (exampleNav true) = exampleNav true :=
  ⟨rfl, goalPoseCallback_locked _ _ _ _ rfl⟩

/-- The return value of getFootstep is the verdict on the service call. -/
theorem getFootstep_fst (from_pose : Transform) (to_state : State) (s : Navigation P) :
    (getFootstep env cfg from_pose to_state s).1 =
      performanceValidClip env cfg (rawFootstep env from_pose to_state)
        (env.clipFootstep s.trace (rawFootstep env from_pose to_state)) := by
  simp only [getFootstep]
  split <;> simp_all

/-- The footstep getFootstep leaves in its out-parameter. -/
theorem getFootstep_step (from_pose : Transform) (to_state : State) (s : Navigation P) :
    (getFootstep env cfg from_pose to_state s).2.1 =
      if performanceValidClip env cfg (rawFootstep env from_pose to_state)
          (env.clipFootstep s.trace (rawFootstep env from_pose to_state)) then
        { rawFootstep env from_pose to_state with
          pose := (env.clipFootstep s.trace (rawFootstep env from_pose to_state)).pose }
      else rawFootstep env from_pose to_state := by
  simp only [getFootstep]
  split <;> rfl

/-- The state after getFootstep: one call to the clipping service is recorded. -/
theorem getFootstep_state (from_pose : Transform) (to_state : State) (s : Navigation P) :
    (getFootstep env cfg from_pose to_state s).2.2 =
      s.emit (Event.clipFootstep (rawFootstep env from_pose to_state)
        (env.clipFootstep s.trace (rawFootstep env from_pose to_state))) := by
  simp only [getFootstep]
  split <;> rfl

/-- The verdict of performanceValid(const ClipFootstep&), conjunct by conjunct. -/
theorem performanceValidClip_iff (request response : StepTarget) :
    performanceValidClip env cfg request response = true ↔
      |request.pose.x - response.pose.x| ≤ cfg.ivAccuracyX ∧
      |request.pose.y - response.pose.y| ≤ cfg.ivAccuracyY ∧
      |env.shortest_angular_distance request.pose.theta response.pose.theta|
        ≤ cfg.ivAccuracyTheta ∧
      request.leg = response.leg := by
  simp only [performanceValidClip, Bool.and_eq_true, decide_eq_true_eq, and_assoc]

/-- C2: getFootstep sends the raw footstep to the clipping service and returns true
exactly when the response is within ivAccuracyX in x, ivAccuracyY in y, ivAccuracyTheta
in the magnitude of the shortest angular distance of the two thetas, and carries the
leg of the request; otherwise it returns false. -/
theorem getFootstep_feasible_iff (from_pose : Transform) (to_state : State)
    (s : Navigation P) :
    (getFootstep env cfg from_pose to_state s).2.2.trace =
        s.trace ++ [Event.clipFootstep (rawFootstep env from_pose to_state)
          (env.clipFootstep s.trace (rawFootstep env from_pose to_state))] ∧
      ((getFootstep env cfg from_pose to_state s).1 = true ↔
        |(rawFootstep env from_pose to_state).pose.x -
            (env.clipFootstep s.trace (rawFootstep env from_pose to_state)).pose.x|
              ≤ cfg.ivAccuracyX ∧
        |(rawFootstep env from_pose to_state).pose.y -
            (env.clipFootstep s.trace (rawFootstep env from_pose to_state)).pose.y|
              ≤ cfg.ivAccuracyY ∧
        |env.shortest_angular_distance (rawFootstep env from_pose to_state).pose.theta
            (env.clipFootstep s.trace (rawFootstep env from_pose to_state)).pose.theta|
              ≤ cfg.ivAccuracyTheta ∧
        (env.clipFootstep s.trace (rawFootstep env from_pose to_state)).leg =
          (rawFootstep env from_pose to_state).leg) ∧
      ((getFootstep env cfg from_pose to_state s).1 = false ↔
        ¬ (getFootstep env cfg from_pose to_state s).1 = true) := by
  refine ⟨?_, ?_, by simp⟩
  · rw [getFootstep_state]
    rfl
  · rw [getFootstep_fst, performanceValidClip_iff]
    constructor
    · rintro ⟨hx, hy, ht, hl⟩
      exact ⟨hx, hy, ht, hl.symm⟩
    · rintro ⟨hx, hy, ht, hl⟩
      exact ⟨hx, hy, ht, hl.symm⟩

/-- A feasible footstep is the response of the clipping service: the pose is copied
from the response and the leg kept from the request is the leg of the response. -/
theorem getFootstep_step_of_valid (from_pose : Transform) (to_state : State)
    (s : Navigation P)
    (h : performanceValidClip env cfg (rawFootstep env from_pose to_state)
      (env.clipFootstep s.trace (rawFootstep env from_pose to_state)) = true) :
    (getFootstep env cfg from_pose to_state s).2.1 =
      env.clipFootstep s.trace (rawFootstep env from_pose to_state) := by
  rw [getFootstep_step, if_pos h]
  rw [performanceValidClip_iff] at h
  cases hr : env.clipFootstep s.trace (rawFootstep env from_pose to_state) with
  | mk pose leg =>
    rw [hr] at h
    simp only [StepTarget.mk.injEq, true_and]
    exact h.2.2.2

/-- C3: when getFootstep returns true, the footstep it hands back is the response of
the clipping service in all four fields (pose x, y, theta and leg). -/
theorem getFootstep_returns_clipped (from_pose : Transform) (to_state : State)
    (s : Navigation P) (h : (getFootstep env cfg from_pose to_state s).1 = true) :
    (getFootstep env cfg from_pose to_state s).2.1 =
      env.clipFootstep s.trace (rawFootstep env from_pose to_state) := by
  rw [getFootstep_fst] at h
  exact getFootstep_step_of_valid env cfg from_pose to_state s h

/-- Witness of C3: the example clipping service returns the request, which is feasible. -/
theorem getFootstep_returns_clipped_witness :
    (getFootstep (exampleEnv examplePath (fun _ => false) true true true true) exampleCfg
        exampleTransform { x := 1, y := 1, theta := 0, leg := Leg.LEFT }
        (exampleNav true)).1 = true ∧
      (getFootstep (exampleEnv examplePath (fun _ => false) true true true true) exampleCfg
        exampleTransform { x := 1, y := 1, theta := 0, leg := Leg.LEFT }
        (exampleNav true)).2.1 =
      (exampleEnv examplePath (fun _ => false) true true true true).clipFootstep
        (exampleNav true).trace
        (rawFootstep (exampleEnv examplePath (fun _ => false) true true true true)
          exampleTransform { x := 1, y := 1, theta := 0, leg := Leg.LEFT }) :=
  ⟨by decide!, getFootstep_returns_clipped _ _ _ _ _ (by decide!)⟩

/-- C4: performanceValid(planned, executed) is true exactly when x and y differ by at
most ivAccuracyX and ivAccuracyY, the shortest angular distance of the thetas is at most
ivAccuracyTheta in magnitude, and the legs are equal; so it is false when the legs
differ and false when one axis is beyond its threshold. -/
theorem performanceValid_iff (planned executed : State) :
    (performanceValid env cfg planned executed = true ↔
      |planned.x - executed.x| ≤ cfg.ivAccuracyX ∧
      |planned.y - executed.y| ≤ cfg.ivAccuracyY ∧
      |env.shortest_angular_distance planned.theta executed.theta| ≤ cfg.ivAccuracyTheta ∧
      planned.leg = executed.leg) ∧
    (planned.leg ≠ executed.leg → performanceValid env cfg planned executed = false) ∧
    (cfg.ivAccuracyX < |planned.x - executed.x| ∨
      cfg.ivAccuracyY < |planned.y - executed.y| ∨
      cfg.ivAccuracyTheta < |env.shortest_angular_distance planned.theta executed.theta| →
        performanceValid env cfg planned executed = false) := by
  have key : performanceValid env cfg planned executed = true ↔
      |planned.x - executed.x| ≤ cfg.ivAccuracyX ∧
      |planned.y - executed.y| ≤ cfg.ivAccuracyY ∧
      |env.shortest_angular_distance planned.theta executed.theta| ≤ cfg.ivAccuracyTheta ∧
      planned.leg = executed.leg := by
    simp only [performanceValid, Bool.and_eq_true, decide_eq_true_eq, and_assoc]
  refine ⟨key, ?_, ?_⟩
  · intro hne
    rw [← Bool.not_eq_true, key]
    exact fun hc => hne hc.2.2.2
  · intro hex
    rw [← Bool.not_eq_true, key]
    rintro ⟨hx, hy, ht, _⟩
    rcases hex with h | h | h
    · exact absurd hx (not_le.mpr h)
    · exact absurd hy (not_le.mpr h)
    · exact absurd ht (not_le.mpr h)

/-- C5: with the relative-pose computation of the spec in the place of get_footstep,
the raw footstep sent to the clipping service for a Left target carries the computed
y and theta unchanged and the leg left; for the same from pose and coordinates with a
Right target it has the same x, the leg right, and y and theta negated. -/
theorem rawFootstep_mirror (cosf sinf : ℚ → ℚ) (from_pose : Transform) (x y theta : ℚ)
    (s : Navigation P) :
    (getFootstep { env with get_footstep := get_footstep cosf sinf } cfg from_pose
        { x := x, y := y, theta := theta, leg := Leg.LEFT } s).2.2.trace =
      s.trace ++ [Event.clipFootstep
        (rawFootstep { env with get_footstep := get_footstep cosf sinf } from_pose
          { x := x, y := y, theta := theta, leg := Leg.LEFT })
        (env.clipFootstep s.trace
          (rawFootstep { env with get_footstep := get_footstep cosf sinf } from_pose
            { x := x, y := y, theta := theta, leg := Leg.LEFT }))] ∧
    (getFootstep { env with get_footstep := get_footstep cosf sinf } cfg from_pose
        { x := x, y := y, theta := theta, leg := Leg.RIGHT } s).2.2.trace =
      s.trace ++ [Event.clipFootstep
        (rawFootstep { env with get_footstep := get_footstep cosf sinf } from_pose
          { x := x, y := y, theta := theta, leg := Leg.RIGHT })
        (env.clipFootstep s.trace
          (rawFootstep { env with get_footstep := get_footstep cosf sinf } from_pose
            { x := x, y := y, theta := theta, leg := Leg.RIGHT }))] ∧
    (rawFootstep { env with get_footstep := get_footstep cosf sinf } from_pose
        { x := x, y := y, theta := theta, leg := Leg.LEFT }).pose.y =
      (get_footstep cosf sinf from_pose.origin.x from_pose.origin.y
        (env.getYaw from_pose.rotation) Leg.RIGHT x y theta).2.1 ∧
    (rawFootstep { env with get_footstep := get_footstep cosf sinf } from_pose
        { x := x, y := y, theta := theta, leg := Leg.LEFT }).pose.theta =
      (get_footstep cosf sinf from_pose.origin.x from_pose.origin.y
        (env.getYaw from_pose.rotation) Leg.RIGHT x y theta).2.2 ∧
    (rawFootstep { env with get_footstep := get_footstep cosf sinf } from_pose
        { x := x, y := y, theta := theta, leg := Leg.LEFT }).leg = StepTarget.left ∧
    (rawFootstep { env with get_footstep := get_footstep cosf sinf } from_pose
        { x := x, y := y, theta := theta, leg := Leg.RIGHT }).pose.x =
      (rawFootstep { env with get_footstep := get_footstep cosf sinf } from_pose
        { x := x, y := y, theta := theta, leg := Leg.LEFT }).pose.x ∧
    (rawFootstep { env with get_footstep := get_footstep cosf sinf } from_pose
        { x := x, y := y, theta := theta, leg := Leg.RIGHT }).leg = StepTarget.right ∧
    (rawFootstep { env with get_footstep := get_footstep cosf sinf } from_pose
        { x := x, y := y, theta := theta, leg := Leg.RIGHT }).pose.y =
      -(rawFootstep { env with get_footstep := get_footstep cosf sinf } from_pose
        { x := x, y := y, theta := theta, leg := Leg.LEFT }).pose.y ∧
    (rawFootstep { env with get_footstep := get_footstep cosf sinf } from_pose
        { x := x, y := y, theta := theta, leg := Leg.RIGHT }).pose.theta =
      -(rawFootstep { env with get_footstep := get_footstep cosf sinf } from_pose
        { x := x, y := y, theta := theta, leg := Leg.LEFT }).pose.theta := by
  refine ⟨?_, ?_, ?_, ?_, ?_, ?_, ?_, ?_, ?_⟩
  · rw [getFootstep_state]; rfl
  · rw [getFootstep_state]; rfl
  all_goals simp [rawFootstep, get_footstep]

end Footstep

section Histories

variable (env : Env P) (cfg : Config)

/-- Appending no call leaves a state as it is. -/
theorem Navigation.trace_append_nil (s : Navigation P) :
    { s with trace := s.trace ++ [] } = s := by
  cases s
  simp

/-- The state after updateStart: two lookups at ivLastRobotTime, the left foot first,
and one setStart call on the two looked-up poses, answered by the value updateStart
returns; the planner is the only member that may change. -/
theorem updateStart_state (s : Navigation P) :
    ∃ (fl fr : Transform) (p : P),
      (updateStart env cfg s).2 =
        { s with
          ivPlanner := p
          trace := s.trace ++
            [ Event.getFootTransform cfg.ivIdFootLeft s.ivIdMapFrame s.ivLastRobotTime fl,
              Event.getFootTransform cfg.ivIdFootRight s.ivIdMapFrame s.ivLastRobotTime fr,
              Event.setStart
                { x := fl.origin.x, y := fl.origin.y, theta := env.getYaw fl.rotation,
                  leg := Leg.LEFT }
                { x := fr.origin.x, y := fr.origin.y, theta := env.getYaw fr.rotation,
                  leg := Leg.RIGHT }
                (updateStart env cfg s).1 ] } := by
  refine ⟨(getFootTransform env cfg.ivIdFootLeft s.ivIdMapFrame s.ivLastRobotTime s).1,
    (getFootTransform env cfg.ivIdFootRight s.ivIdMapFrame s.ivLastRobotTime
      (getFootTransform env cfg.ivIdFootLeft s.ivIdMapFrame s.ivLastRobotTime s).2).1,
    (env.setStart s.ivPlanner
      { x := (getFootTransform env cfg.ivIdFootLeft s.ivIdMapFrame s.ivLastRobotTime s).1.origin.x,
        y := (getFootTransform env cfg.ivIdFootLeft s.ivIdMapFrame s.ivLastRobotTime s).1.origin.y,
        theta := env.getYaw (getFootTransform env cfg.ivIdFootLeft s.ivIdMapFrame s.ivLastRobotTime s).1.rotation,
        leg := Leg.LEFT }
      { x := (getFootTransform env cfg.ivIdFootRight s.ivIdMapFrame s.ivLastRobotTime
      (getFootTransform env cfg.ivIdFootLeft s.ivIdMapFrame s.ivLastRobotTime s).2).1.origin.x,
        y := (getFootTransform env cfg.ivIdFootRight s.ivIdMapFrame s.ivLastRobotTime
      (getFootTransform env cfg.ivIdFootLeft s.ivIdMapFrame s.ivLastRobotTime s).2).1.origin.y,
        theta := env.getYaw (getFootTransform env cfg.ivIdFootRight s.ivIdMapFrame s.ivLastRobotTime
      (getFootTransform env cfg.ivIdFootLeft s.ivIdMapFrame s.ivLastRobotTime s).2).1.rotation,
        leg := Leg.RIGHT }).2, ?_⟩
  simp [updateStart, getFootTransform, Navigation.emit]

/-- Every history continues itself. -/
theorem Navigation.Extends.refl (s : Navigation P) : s.Extends s :=
  ⟨[], by simp⟩

/-- Continuation of histories is transitive. -/
theorem Navigation.Extends.trans {s s1 s2 : Navigation P} (h1 : s.Extends s1)
    (h2 : s1.Extends s2) : s.Extends s2 := by
  obtain ⟨l1, e1⟩ := h1
  obtain ⟨l2, e2⟩ := h2
  exact ⟨l1 ++ l2, by rw [e2, e1, List.append_assoc]⟩

/-- A state with the same history continues it. -/
theorem Navigation.Extends.of_trace_eq {s s1 : Navigation P} (h : s1.trace = s.trace) :
    s.Extends s1 :=
  ⟨[], by simp [h]⟩

/-- Recording a call continues the history. -/
theorem Navigation.Extends.emit (s : Navigation P) (e : Event) : s.Extends (s.emit e) :=
  ⟨[e], rfl⟩

/-- A call made earlier is still in a continued history. -/
theorem Navigation.Extends.mem {s s1 : Navigation P} (h : s.Extends s1) {e : Event}
    (he : e ∈ s.trace) : e ∈ s1.trace := by
  obtain ⟨l, hl⟩ := h
  rw [hl]
  exact List.mem_append_left l he

/-- The function getFootstep only adds to the history. -/
theorem getFootstep_extends (from_pose : Transform) (to_state : State) (s : Navigation P) :
    s.Extends (getFootstep env cfg from_pose to_state s).2.2 := by
  rw [getFootstep_state]
  exact Navigation.Extends.emit _ _

/-- The function updateStart only adds to the history. -/
theorem updateStart_extends (s : Navigation P) : s.Extends (updateStart env cfg s).2 := by
  obtain ⟨fl, fr, p, h⟩ := updateStart_state env cfg s
  rw [h]
  exact ⟨_, rfl⟩

/-- The replan call only adds to the history. -/
theorem replan_extends (s : Navigation P) : s.Extends (replan env s).2 :=
  ⟨[Event.replan (env.replan s.ivPlanner).1], rfl⟩

/-- The plan call only adds to the history. -/
theorem plan_extends (s : Navigation P) : s.Extends (plan env s).2 :=
  ⟨[Event.plan (env.plan s.ivPlanner).1], rfl⟩

/-- The for loop of getFootstepsFromPath only adds to the history. -/
theorem getFootstepsFromPath.loop_extends (wps : List State) :
    ∀ (last : Transform) (footsteps : List StepTarget) (s : Navigation P),
      s.Extends (getFootstepsFromPath.loop env cfg last wps footsteps s).2.2 := by
  induction wps with
  | nil =>
    intro last footsteps s
    exact Navigation.Extends.refl s
  | cons wp rest ih =>
    intro last footsteps s
    simp only [getFootstepsFromPath.loop]
    split
    · exact (getFootstep_extends env cfg last wp s).trans (ih _ _ _)
    · exact getFootstep_extends env cfg last wp s

/-- The function executeFootsteps_alt only adds to the history. -/
theorem executeFootsteps_alt_extends (s : Navigation P) :
    s.Extends (executeFootsteps_alt env cfg s) := by
  unfold executeFootsteps_alt
  split
  · exact Navigation.Extends.refl s
  · simp only [getFootstepsFromPath]
    split_ifs
    all_goals
      first
      | exact ((Navigation.Extends.emit s _).trans
          (getFootstepsFromPath.loop_extends env cfg _ _ _ _)).trans ⟨[_], rfl⟩
      | exact ((Navigation.Extends.emit s _).trans
          (getFootstepsFromPath.loop_extends env cfg _ _ _ _)).trans
            (Navigation.Extends.of_trace_eq rfl)

/-- The function run only adds to the history. -/
theorem run_extends (s : Navigation P) : s.Extends (run env cfg s) := by
  have hp : s.Extends (plan env { s with ivExecutingFootsteps := true }).2 :=
    ⟨[Event.plan (env.plan s.ivPlanner).1], rfl⟩
  simp only [run]
  split
  · split
    · exact hp.trans (Navigation.Extends.emit _ _)
    · exact hp.trans (executeFootsteps_alt_extends env cfg _)
  · exact hp.trans (Navigation.Extends.of_trace_eq rfl)

/-- The replanning branch of executeFootsteps only adds to the history. -/
theorem executeFootsteps.replanning_extends (s : Navigation P) :
    s.Extends (executeFootsteps.replanning env cfg s) := by
  simp only [executeFootsteps.replanning]
  split
  · split
    · exact ((updateStart_extends env cfg s).trans (replan_extends env _)).trans
        (Navigation.Extends.emit _ _)
    · exact ((updateStart_extends env cfg s).trans (replan_extends env _)).trans
        (run_extends env cfg _)
  · exact updateStart_extends env cfg s

/-- The verdicts of a concatenated history. -/
theorem clipVerdicts_append (l1 l2 : List Event) :
    clipVerdicts env cfg (l1 ++ l2) = clipVerdicts env cfg l1 ++ clipVerdicts env cfg l2 := by
  induction l1 with
  | nil => rfl
  | cons e es ih => cases e <;> simp [clipVerdicts, ih]

/-- The support foot of executeFootsteps is the foot opposite to the leg of the
waypoint: the right foot for a left waypoint, the left foot for a right waypoint. -/
theorem executeFootsteps.support_foot_id_opposite (wp : State) :
    executeFootsteps.support_foot_id cfg wp =
      match wp.leg with
      | Leg.LEFT => cfg.ivIdFootRight
      | Leg.RIGHT => cfg.ivIdFootLeft := by
  unfold executeFootsteps.support_foot_id
  cases wp.leg <;> simp

/-- One pass of the while loop of executeFootsteps with a feasible step: the state
gains the three calls of the pass and nothing else changes. -/
theorem executeFootsteps.pass_state (wp : State) (s : Navigation P)
    (h : (getFootstep env cfg
      (getFootTransform env (executeFootsteps.support_foot_id cfg wp)
        s.ivIdMapFrame (env.now s.trace) s).1 wp
      (getFootTransform env (executeFootsteps.support_foot_id cfg wp)
        s.ivIdMapFrame (env.now s.trace) s).2).1 = true) :
    ∃ o : Time × Transform × StepTarget,
      performanceValidClip env cfg (rawFootstep env o.2.1 wp) o.2.2 = true ∧
      (getFootstep env cfg
        (getFootTransform env (executeFootsteps.support_foot_id cfg wp)
          s.ivIdMapFrame (env.now s.trace) s).1 wp
        (getFootTransform env (executeFootsteps.support_foot_id cfg wp)
          s.ivIdMapFrame (env.now s.trace) s).2).2.2.emit
        (Event.footstepSrv (getFootstep env cfg
          (getFootTransform env
            (executeFootsteps.support_foot_id cfg wp)
            s.ivIdMapFrame (env.now s.trace) s).1 wp
          (getFootTransform env
            (executeFootsteps.support_foot_id cfg wp)
            s.ivIdMapFrame (env.now s.trace) s).2).2.1) =
      { s with trace := s.trace ++ stepCalls env cfg s.ivIdMapFrame wp o } := by
  have hv := h
  rw [getFootstep_fst] at hv
  refine ⟨(env.now s.trace, _, _), hv, ?_⟩
  rw [getFootstep_step_of_valid env cfg _ _ _ hv, getFootstep_state]
  simp [getFootTransform, Navigation.emit, stepCalls,
    executeFootsteps.support_foot_id_opposite]

/-- One pass of the while loop of executeFootsteps with an infeasible step: the state
handed to the replanning branch has gained the lookup and the clipping call. -/
theorem executeFootsteps.fail_state (wp : State) (s : Navigation P)
    (h : ¬ (getFootstep env cfg
      (getFootTransform env (executeFootsteps.support_foot_id cfg wp)
        s.ivIdMapFrame (env.now s.trace) s).1 wp
      (getFootTransform env (executeFootsteps.support_foot_id cfg wp)
        s.ivIdMapFrame (env.now s.trace) s).2).1 = true) :
    ∃ (t : Time) (T : Transform) (resp : StepTarget),
      performanceValidClip env cfg (rawFootstep env T wp) resp = false ∧
      (getFootstep env cfg
        (getFootTransform env (executeFootsteps.support_foot_id cfg wp)
          s.ivIdMapFrame (env.now s.trace) s).1 wp
        (getFootTransform env (executeFootsteps.support_foot_id cfg wp)
          s.ivIdMapFrame (env.now s.trace) s).2).2.2 =
      { s with trace := s.trace ++
          [ Event.getFootTransform
              (executeFootsteps.support_foot_id cfg wp)
              s.ivIdMapFrame t T,
            Event.clipFootstep (rawFootstep env T wp) resp ] } := by
  have hv := h
  rw [getFootstep_fst, Bool.not_eq_true] at hv
  refine ⟨env.now s.trace, _, _, hv, ?_⟩
  rw [getFootstep_state]
  simp [getFootTransform, Navigation.emit]

/-- The while loop of executeFootsteps either runs over all waypoints, each pass
feasible, or stops at the first infeasible waypoint and enters the replanning branch. -/
theorem executeFootsteps.loop_spec (wps : List State) : ∀ s : Navigation P,
    (∃ obs : List (Time × Transform × StepTarget), obs.length = wps.length ∧
      clipVerdicts env cfg (walkCalls env cfg s.ivIdMapFrame wps obs) =
        List.replicate wps.length true ∧
      executeFootsteps.loop env cfg wps s =
        (true, { s with trace := s.trace ++ walkCalls env cfg s.ivIdMapFrame wps obs })) ∨
    (∃ (pre : List State) (wp : State) (post : List State)
        (obs : List (Time × Transform × StepTarget)) (t : Time) (T : Transform)
        (resp : StepTarget),
      wps = pre ++ wp :: post ∧ obs.length = pre.length ∧
      clipVerdicts env cfg (walkCalls env cfg s.ivIdMapFrame pre obs) =
        List.replicate pre.length true ∧
      performanceValidClip env cfg (rawFootstep env T wp) resp = false ∧
      executeFootsteps.loop env cfg wps s =
        (false, executeFootsteps.replanning env cfg
          { s with trace := s.trace ++ (walkCalls env cfg s.ivIdMapFrame pre obs ++
            [ Event.getFootTransform
                (executeFootsteps.support_foot_id cfg wp)
                s.ivIdMapFrame t T,
              Event.clipFootstep (rawFootstep env T wp) resp ]) })) := by
  induction wps with
  | nil =>
    intro s
    left
    refine ⟨[], rfl, rfl, ?_⟩
    simp [executeFootsteps.loop, walkCalls]
  | cons wp rest ih =>
    intro s
    simp only [executeFootsteps.loop]
    split
    · rename_i h
      obtain ⟨o, hvalid, hs⟩ := executeFootsteps.pass_state env cfg wp s h
      rw [hs]
      rcases ih { s with trace := s.trace ++ stepCalls env cfg s.ivIdMapFrame wp o } with
        ⟨obs, hlen, hver, hloop⟩ | ⟨pre, w, post, obs, t, T, resp, hw, hlen, hver, hbad, hloop⟩
      · left
        refine ⟨o :: obs, by simp [hlen], ?_, ?_⟩
        · simp only [walkCalls, clipVerdicts_append, hver]
          simp [stepCalls, clipVerdicts, hvalid, List.replicate_succ]
        · rw [hloop]
          simp [walkCalls, List.append_assoc]
      · right
        refine ⟨wp :: pre, w, post, o :: obs, t, T, resp, by simp [hw], by simp [hlen],
          ?_, hbad, ?_⟩
        · simp only [walkCalls, clipVerdicts_append, hver]
          simp [stepCalls, clipVerdicts, hvalid, List.replicate_succ]
        · rw [hloop]
          simp [walkCalls, List.append_assoc]
    · rename_i h
      obtain ⟨t, T, resp, hbad, hs⟩ := executeFootsteps.fail_state env cfg wp s h
      right
      refine ⟨[], wp, rest, [], t, T, resp, rfl, rfl, rfl, hbad, ?_⟩
      rw [hs]
      simp [walkCalls]

/-- The calls since `s` are what was appended to the history of `s`. -/
theorem callsSince_eq (s s1 : Navigation P) (l : List Event) (h : s1.trace = s.trace ++ l) :
    callsSince s s1 = l := by
  simp [callsSince, h]

/-- The dispatched steps of a concatenated history. -/
theorem dispatched_append (l1 l2 : List Event) :
    dispatched (l1 ++ l2) = dispatched l1 ++ dispatched l2 := by
  induction l1 with
  | nil => rfl
  | cons e es ih => cases e <;> simp [dispatched, ih]

/-- The plan answers of a concatenated history. -/
theorem planAnswers_append (l1 l2 : List Event) :
    planAnswers (l1 ++ l2) = planAnswers l1 ++ planAnswers l2 := by
  induction l1 with
  | nil => rfl
  | cons e es ih => cases e <;> simp [planAnswers, ih]

/-- The replan answers of a concatenated history. -/
theorem replanAnswers_append (l1 l2 : List Event) :
    replanAnswers (l1 ++ l2) = replanAnswers l1 ++ replanAnswers l2 := by
  induction l1 with
  | nil => rfl
  | cons e es ih => cases e <;> simp [replanAnswers, ih]

/-- The setStart answers of a concatenated history. -/
theorem setStartAnswers_append (l1 l2 : List Event) :
    setStartAnswers (l1 ++ l2) = setStartAnswers l1 ++ setStartAnswers l2 := by
  induction l1 with
  | nil => rfl
  | cons e es ih => cases e <;> simp [setStartAnswers, ih]

/-- The thread starts of a concatenated history. -/
theorem threadStarts_append (l1 l2 : List Event) :
    threadStarts (l1 ++ l2) = threadStarts l1 + threadStarts l2 := by
  induction l1 with
  | nil => simp [threadStarts]
  | cons e es ih =>
    cases e <;> simp [threadStarts, ih]
    omega

/-- The passes of the loop dispatch the clipped steps in order and call neither the
planner nor a new thread. -/
theorem walkCalls_calls (frame : String) (wps : List State) :
    ∀ obs : List (Time × Transform × StepTarget), obs.length = wps.length →
      dispatched (walkCalls env cfg frame wps obs) = obs.map (fun o => o.2.2) ∧
      setStartAnswers (walkCalls env cfg frame wps obs) = [] ∧
      replanAnswers (walkCalls env cfg frame wps obs) = [] ∧
      planAnswers (walkCalls env cfg frame wps obs) = [] ∧
      threadStarts (walkCalls env cfg frame wps obs) = 0 := by
  induction wps with
  | nil =>
    intro obs h
    cases obs with
    | nil =>
      simp [walkCalls, dispatched, setStartAnswers, replanAnswers, planAnswers, threadStarts]
    | cons o os => simp at h
  | cons wp rest ih =>
    intro obs h
    cases obs with
    | nil => simp at h
    | cons o os =>
      obtain ⟨h1, h2, h3, h4, h5⟩ := ih os (by simpa using h)
      simp only [walkCalls, dispatched_append, setStartAnswers_append, replanAnswers_append,
        planAnswers_append, threadStarts_append, h1, h2, h3, h4, h5]
      simp [stepCalls, dispatched, setStartAnswers, replanAnswers, planAnswers, threadStarts]

/-- The pose lookups of a concatenated history. -/
theorem footLookups_append (l1 l2 : List Event) :
    footLookups (l1 ++ l2) = footLookups l1 ++ footLookups l2 := by
  induction l1 with
  | nil => rfl
  | cons e es ih => cases e <;> simp [footLookups, ih]

/-- The passes of the loop ask the pose source once per waypoint, in order, for the foot
opposite to the leg of the waypoint. -/
theorem walkCalls_lookups (frame : String) (wps : List State) :
    ∀ obs : List (Time × Transform × StepTarget), obs.length = wps.length →
      footLookups (walkCalls env cfg frame wps obs) =
        wps.map (fun wp =>
          match wp.leg with
          | Leg.LEFT => cfg.ivIdFootRight
          | Leg.RIGHT => cfg.ivIdFootLeft) := by
  induction wps with
  | nil =>
    intro obs h
    cases obs with
    | nil => simp [walkCalls, footLookups]
    | cons o os => simp at h
  | cons wp rest ih =>
    intro obs h
    cases obs with
    | nil => simp at h
    | cons o os =>
      have h1 := ih os (by simpa using h)
      simp only [walkCalls, footLookups_append, h1]
      simp [stepCalls, footLookups]

/-- The function executeFootsteps on a path of at least two states: the loop over the
states after the first, with the lock set before and cleared after a complete loop. -/
theorem executeFootsteps_of_path (s : Navigation P) (first second : State)
    (rest : List State) (hp : env.getPath s.ivPlanner = first :: second :: rest) :
    executeFootsteps env cfg s =
      if (executeFootsteps.loop env cfg (second :: rest)
          { s with ivExecutingFootsteps := true }).1 then
        { (executeFootsteps.loop env cfg (second :: rest)
            { s with ivExecutingFootsteps := true }).2 with ivExecutingFootsteps := false }
      else
        (executeFootsteps.loop env cfg (second :: rest)
          { s with ivExecutingFootsteps := true }).2 := by
  simp only [executeFootsteps, hp]
  simp

end Histories

section Sequential

variable (env : Env P) (cfg : Config)

/-- C8: on a path of at least two states, when every clipping verdict of the run is
positive, executeFootsteps makes one pass for each state after the first, in path
order: it looks up the foot opposite to the leg of that state (the right foot frame for
a left state, the left foot frame for a right state), computes the request from the
answer, and dispatches the clipped step.  It makes no setStart, replan or plan call,
starts no thread, and ends with ivExecutingFootsteps cleared. -/
theorem executeFootsteps_all_feasible (s : Navigation P)
    (hlen : 2 ≤ (env.getPath s.ivPlanner).length)
    (hfeas : ∀ b ∈ clipVerdicts env cfg (callsSince s (executeFootsteps env cfg s)),
      b = true) :
    ∃ obs : List (Time × Transform × StepTarget),
      obs.length = (env.getPath s.ivPlanner).length - 1 ∧
      executeFootsteps env cfg s =
        { s with
          ivExecutingFootsteps := false
          trace := s.trace ++
            walkCalls env cfg s.ivIdMapFrame (env.getPath s.ivPlanner).tail obs } ∧
      dispatched (callsSince s (executeFootsteps env cfg s)) = obs.map (fun o => o.2.2) ∧
      setStartAnswers (callsSince s (executeFootsteps env cfg s)) = [] ∧
      replanAnswers (callsSince s (executeFootsteps env cfg s)) = [] ∧
      planAnswers (callsSince s (executeFootsteps env cfg s)) = [] ∧
      threadStarts (callsSince s (executeFootsteps env cfg s)) = 0 ∧
      footLookups (callsSince s (executeFootsteps env cfg s)) =
        (env.getPath s.ivPlanner).tail.map (fun wp =>
          match wp.leg with
          | Leg.LEFT => cfg.ivIdFootRight
          | Leg.RIGHT => cfg.ivIdFootLeft) := by
  obtain ⟨first, second, rest, hp⟩ :
      ∃ first second rest, env.getPath s.ivPlanner = first :: second :: rest := by
    match hq : env.getPath s.ivPlanner, hlen with
    | [], h => simp [hq] at h
    | [_], h => simp [hq] at h
    | a :: b :: c, _ => exact ⟨a, b, c, rfl⟩
  have hex := executeFootsteps_of_path env cfg s first second rest hp
  rcases executeFootsteps.loop_spec env cfg (second :: rest)
      { s with ivExecutingFootsteps := true } with
    ⟨obs, hobs, _, hloop⟩ | ⟨pre, wp, post, obs, t, T, resp, _, _, _, hbad, hloop⟩
  · rw [hloop] at hex
    simp only [if_true] at hex
    have hcalls : callsSince s (executeFootsteps env cfg s) =
        walkCalls env cfg s.ivIdMapFrame (second :: rest) obs :=
      callsSince_eq _ _ _ (by rw [hex])
    obtain ⟨h1, h2, h3, h4, h5⟩ :=
      walkCalls_calls env cfg s.ivIdMapFrame (second :: rest) obs hobs
    have h6 := walkCalls_lookups env cfg s.ivIdMapFrame (second :: rest) obs hobs
    refine ⟨obs, by simp [hp, hobs], ?_, ?_, ?_, ?_, ?_, ?_, ?_⟩
    · rw [hex, hp]
      rfl
    · rw [hcalls, h1]
    · rw [hcalls, h2]
    · rw [hcalls, h3]
    · rw [hcalls, h4]
    · rw [hcalls, h5]
    · rw [hcalls, h6, hp]
      rfl
  · exfalso
    rw [hloop] at hex
    simp only [Bool.false_eq_true, if_false] at hex
    obtain ⟨l, hl⟩ := executeFootsteps.replanning_extends env cfg
      { s with
        ivExecutingFootsteps := true
        trace := s.trace ++ (walkCalls env cfg s.ivIdMapFrame pre obs ++
          [ Event.getFootTransform (executeFootsteps.support_foot_id cfg wp)
              s.ivIdMapFrame t T,
            Event.clipFootstep (rawFootstep env T wp) resp ]) }
    have hcalls := callsSince_eq s (executeFootsteps env cfg s) _
      (by rw [hex, hl, List.append_assoc])
    have hmem : false ∈ clipVerdicts env cfg (callsSince s (executeFootsteps env cfg s)) := by
      rw [hcalls]
      simp [clipVerdicts_append, clipVerdicts, hbad]
    exact Bool.noConfusion (hfeas _ hmem)

/-- Witness of C8: the example path (legs right, left, right) with a clipping service
that returns every request: two steps are dispatched, the first computed from the right
foot for the left state 1, the second from the left foot for the right state 2. -/
theorem executeFootsteps_all_feasible_witness :
    2 ≤ ((exampleEnv examplePath (fun _ => false) true true true true).getPath
        (exampleNav false).ivPlanner).length ∧
    (∀ b ∈ clipVerdicts (exampleEnv examplePath (fun _ => false) true true true true)
        exampleCfg
        (callsSince (exampleNav false)
          (executeFootsteps (exampleEnv examplePath (fun _ => false) true true true true)
            exampleCfg (exampleNav false))), b = true) ∧
    (executeFootsteps (exampleEnv examplePath (fun _ => false) true true true true)
      exampleCfg (exampleNav false)).ivExecutingFootsteps = false ∧
    (dispatched (callsSince (exampleNav false)
      (executeFootsteps (exampleEnv examplePath (fun _ => false) true true true true)
        exampleCfg (exampleNav false)))).length = 2 ∧
    footLookups (callsSince (exampleNav false)
      (executeFootsteps (exampleEnv examplePath (fun _ => false) true true true true)
        exampleCfg (exampleNav false))) = ["/r_sole", "/l_sole"] := by
  have h1 : 2 ≤ ((exampleEnv examplePath (fun _ => false) true true true true).getPath
        (exampleNav false).ivPlanner).length := by decide
  have h2 : ∀ b ∈ clipVerdicts (exampleEnv examplePath (fun _ => false) true true true true)
        exampleCfg
        (callsSince (exampleNav false)
          (executeFootsteps (exampleEnv examplePath (fun _ => false) true true true true)
            exampleCfg (exampleNav false))), b = true := by decide!
  obtain ⟨obs, hobs, hres, hd, -, -, -, -, hfoot⟩ :=
    executeFootsteps_all_feasible _ _ _ h1 h2
  refine ⟨h1, h2, ?_, ?_, ?_⟩
  · rw [hres]
  · rw [hd, List.length_map, hobs]
    rfl
  · rw [hfoot]
    rfl

/-- The element right after a list `pre` in `pre ++ wp :: post` is `wp`. -/
theorem getElem?_append_cons {α : Type} (pre : List α) (wp : α) (post : List α) :
    (pre ++ wp :: post)[pre.length]? = some wp := by
  induction pre with
  | nil => simp
  | cons a as ih => simpa using ih

/-- The position of the first negative verdict among positive ones. -/
theorem take_replicate_true_false {k m : ℕ}
    (h : (List.replicate m true ++ [false]).take k = List.replicate (k - 1) true ++ [false]) :
    k = m + 1 := by
  have hlen := congrArg List.length h
  simp only [List.length_take, List.length_append, List.length_replicate,
    List.length_singleton] at hlen
  by_contra hne
  have hk : k ≤ m := by omega
  have hmem : false ∈ (List.replicate m true ++ [false]).take k := by
    rw [h]
    simp
  rw [List.take_append_of_le_length (by simpa using hk)] at hmem
  have := List.mem_of_mem_take hmem
  simp at this

/-- The state after the call of replan: the planner's new state and one recorded call. -/
theorem replan_state (s : Navigation P) :
    (replan env s).2 =
      { s with
        ivPlanner := (env.replan s.ivPlanner).2
        trace := s.trace ++ [Event.replan (replan env s).1] } := rfl

/-- The replanning branch of executeFootsteps: the start pose is resolved and handed to
setStart; on failure the function returns; otherwise replan is called; on success one
thread is started, on failure run is called. -/
theorem executeFootsteps.replanning_spec (s : Navigation P) :
    ∃ (fl fr : Transform) (p : P) (okStart okReplan : Bool) (l : List Event),
      (executeFootsteps.replanning env cfg s).trace = s.trace ++
        ([ Event.getFootTransform cfg.ivIdFootLeft s.ivIdMapFrame s.ivLastRobotTime fl,
           Event.getFootTransform cfg.ivIdFootRight s.ivIdMapFrame s.ivLastRobotTime fr,
           Event.setStart
             { x := fl.origin.x, y := fl.origin.y, theta := env.getYaw fl.rotation,
               leg := Leg.LEFT }
             { x := fr.origin.x, y := fr.origin.y, theta := env.getYaw fr.rotation,
               leg := Leg.RIGHT }
             okStart ] ++ l) ∧
      (okStart = false → l = []) ∧
      (okStart = true → ∃ l2, l = Event.replan okReplan :: l2) ∧
      (okStart = true → okReplan = true →
        executeFootsteps.replanning env cfg s =
          { s with
            ivPlanner := p
            trace := s.trace ++
              [ Event.getFootTransform cfg.ivIdFootLeft s.ivIdMapFrame s.ivLastRobotTime fl,
                Event.getFootTransform cfg.ivIdFootRight s.ivIdMapFrame s.ivLastRobotTime fr,
                Event.setStart
                  { x := fl.origin.x, y := fl.origin.y, theta := env.getYaw fl.rotation,
                    leg := Leg.LEFT }
                  { x := fr.origin.x, y := fr.origin.y, theta := env.getYaw fr.rotation,
                    leg := Leg.RIGHT }
                  true,
                Event.replan true,
                Event.thread_executeFootsteps ] }) := by
  obtain ⟨fl, fr, p, hu⟩ := updateStart_state env cfg s
  by_cases h1 : (updateStart env cfg s).1 = true
  · by_cases h2 : (replan env (updateStart env cfg s).2).1 = true
    · have hr : executeFootsteps.replanning env cfg s =
          (replan env (updateStart env cfg s).2).2.emit Event.thread_executeFootsteps := by
        simp only [executeFootsteps.replanning, h1, h2, if_true]
      refine ⟨fl, fr, (env.replan p).2, true, true,
        [Event.replan true, Event.thread_executeFootsteps], ?_, by simp, by simp, ?_⟩
      · rw [hr, replan_state, h2, hu, h1]
        simp [Navigation.emit]
      · intro _ _
        rw [hr, replan_state, h2, hu, h1]
        simp [Navigation.emit]
    · have hr : executeFootsteps.replanning env cfg s =
          run env cfg (replan env (updateStart env cfg s).2).2 := by
        simp only [executeFootsteps.replanning, h1, h2, if_true]
        simp
      obtain ⟨l, hl⟩ := run_extends env cfg (replan env (updateStart env cfg s).2).2
      refine ⟨fl, fr, p, true, false, Event.replan false :: l, ?_, by simp, by simp, by simp⟩
      rw [hr, hl, replan_state, Bool.not_eq_true _ |>.mp h2, hu, h1]
      simp
  · have hr : executeFootsteps.replanning env cfg s = (updateStart env cfg s).2 := by
      simp only [executeFootsteps.replanning, h1]
      simp
    refine ⟨fl, fr, p, false, false, [], ?_, by simp, by simp, by simp⟩
    rw [hr, hu, Bool.not_eq_true _ |>.mp h1]
    simp

/-- C9: on a path of at least two states, when the k-th clipping verdict of the run is
its first negative one and setStart and replan answer true, executeFootsteps dispatches
the clipped steps of the states 1 to k-1 in path order, computes the request for state
k once, resolves the start pose, calls replan once and plan not at all, starts one
thread on executeFootsteps and returns; no later state of the path is touched. -/
theorem executeFootsteps_first_infeasible (s : Navigation P) (k : ℕ)
    (hlen : 2 ≤ (env.getPath s.ivPlanner).length)
    (hk : (clipVerdicts env cfg (callsSince s (executeFootsteps env cfg s))).take k =
      List.replicate (k - 1) true ++ [false])
    (hstart : ∀ b ∈ setStartAnswers (callsSince s (executeFootsteps env cfg s)), b = true)
    (hreplan : ∀ b ∈ replanAnswers (callsSince s (executeFootsteps env cfg s)), b = true) :
    ∃ (wp : State) (obs : List (Time × Transform × StepTarget)) (t : Time) (T : Transform)
        (resp : StepTarget) (fl fr : Transform) (p : P),
      1 ≤ k ∧ (env.getPath s.ivPlanner)[k]? = some wp ∧ obs.length = k - 1 ∧
      performanceValidClip env cfg (rawFootstep env T wp) resp = false ∧
      executeFootsteps env cfg s =
        { s with
          ivPlanner := p
          ivExecutingFootsteps := true
          trace := s.trace ++
            (walkCalls env cfg s.ivIdMapFrame ((env.getPath s.ivPlanner).tail.take (k - 1)) obs
              ++
              [ Event.getFootTransform (executeFootsteps.support_foot_id cfg wp)
                  s.ivIdMapFrame t T,
                Event.clipFootstep (rawFootstep env T wp) resp,
                Event.getFootTransform cfg.ivIdFootLeft s.ivIdMapFrame s.ivLastRobotTime fl,
                Event.getFootTransform cfg.ivIdFootRight s.ivIdMapFrame s.ivLastRobotTime fr,
                Event.setStart
                  { x := fl.origin.x, y := fl.origin.y, theta := env.getYaw fl.rotation,
                    leg := Leg.LEFT }
                  { x := fr.origin.x, y := fr.origin.y, theta := env.getYaw fr.rotation,
                    leg := Leg.RIGHT }
                  true,
                Event.replan true,
                Event.thread_executeFootsteps ]) } ∧
      dispatched (callsSince s (executeFootsteps env cfg s)) = obs.map (fun o => o.2.2) ∧
      replanAnswers (callsSince s (executeFootsteps env cfg s)) = [true] ∧
      planAnswers (callsSince s (executeFootsteps env cfg s)) = [] ∧
      threadStarts (callsSince s (executeFootsteps env cfg s)) = 1 := by
  obtain ⟨first, second, rest, hp⟩ :
      ∃ first second rest, env.getPath s.ivPlanner = first :: second :: rest := by
    match hq : env.getPath s.ivPlanner, hlen with
    | [], h => simp [hq] at h
    | [_], h => simp [hq] at h
    | a :: b :: c, _ => exact ⟨a, b, c, rfl⟩
  have hex := executeFootsteps_of_path env cfg s first second rest hp
  rcases executeFootsteps.loop_spec env cfg (second :: rest)
      { s with ivExecutingFootsteps := true } with
    ⟨obs, _, hver, hloop⟩ | ⟨pre, wp, post, obs, t, T, resp, hw, hobs, hver, hbad, hloop⟩
  · exfalso
    rw [hloop] at hex
    simp only [if_true] at hex
    have hcalls : callsSince s (executeFootsteps env cfg s) =
        walkCalls env cfg s.ivIdMapFrame (second :: rest) obs :=
      callsSince_eq _ _ _ (by rw [hex])
    rw [hcalls] at hk
    have hver2 : clipVerdicts env cfg (walkCalls env cfg s.ivIdMapFrame (second :: rest) obs)
        = List.replicate (second :: rest).length true := hver
    rw [hver2] at hk
    have hmem : false ∈ List.take k (List.replicate (second :: rest).length true) := by
      rw [hk]
      simp
    have := List.mem_of_mem_take hmem
    simp at this
  · rw [hloop] at hex
    simp only [Bool.false_eq_true, if_false] at hex
    obtain ⟨fl, fr, p, okStart, okReplan, l, htr, _, hl2, hboth⟩ :=
      executeFootsteps.replanning_spec env cfg
        { s with
          ivExecutingFootsteps := true
          trace := s.trace ++ (walkCalls env cfg s.ivIdMapFrame pre obs ++
            [ Event.getFootTransform (executeFootsteps.support_foot_id cfg wp)
                s.ivIdMapFrame t T,
              Event.clipFootstep (rawFootstep env T wp) resp ]) }
    obtain ⟨_, hs2, hs3, hs4, _⟩ := walkCalls_calls env cfg s.ivIdMapFrame pre obs hobs
    have hcalls0 := callsSince_eq s (executeFootsteps env cfg s) _
      (by rw [hex, htr, List.append_assoc])
    have hokS : okStart = true := by
      apply hstart
      rw [hcalls0]
      simp [setStartAnswers_append, setStartAnswers]
    obtain ⟨l2, rfl⟩ := hl2 hokS
    have hokR : okReplan = true := by
      apply hreplan
      rw [hcalls0]
      simp [replanAnswers_append, replanAnswers]
    have hres := hboth hokS hokR
    rw [← hex] at hres
    have hcalls := callsSince_eq s (executeFootsteps env cfg s)
      (walkCalls env cfg s.ivIdMapFrame pre obs ++
        [ Event.getFootTransform (executeFootsteps.support_foot_id cfg wp)
            s.ivIdMapFrame t T,
          Event.clipFootstep (rawFootstep env T wp) resp,
          Event.getFootTransform cfg.ivIdFootLeft s.ivIdMapFrame s.ivLastRobotTime fl,
          Event.getFootTransform cfg.ivIdFootRight s.ivIdMapFrame s.ivLastRobotTime fr,
          Event.setStart
            { x := fl.origin.x, y := fl.origin.y, theta := env.getYaw fl.rotation,
              leg := Leg.LEFT }
            { x := fr.origin.x, y := fr.origin.y, theta := env.getYaw fr.rotation,
              leg := Leg.RIGHT }
            true,
          Event.replan true,
          Event.thread_executeFootsteps ])
      (by rw [hres]; simp)
    have hkm : k = pre.length + 1 := by
      apply take_replicate_true_false
      rw [hcalls, clipVerdicts_append, hver] at hk
      simpa [clipVerdicts, hbad] using hk
    obtain ⟨hd, _, _, _, ht⟩ := walkCalls_calls env cfg s.ivIdMapFrame pre obs hobs
    have hpre : (env.getPath s.ivPlanner).tail.take (k - 1) = pre := by
      rw [hp, hkm, List.tail_cons, hw]
      simp
    refine ⟨wp, obs, t, T, resp, fl, fr, p, by omega, ?_, by omega, hbad, ?_, ?_, ?_, ?_, ?_⟩
    · rw [hp, hkm, hw, List.getElem?_cons_succ]
      exact getElem?_append_cons pre wp post
    · rw [hres, hpre]
      simp
    · rw [hcalls, dispatched_append, hd]
      simp [dispatched]
    · rw [hcalls, replanAnswers_append, hs3]
      simp [replanAnswers]
    · rw [hcalls, planAnswers_append, hs4]
      simp [planAnswers]
    · rw [hcalls, threadStarts_append, ht]
      simp [threadStarts]

/-- Witness of C9: the example path, the clipping service moving every right step, so
that the second computed step is the first infeasible one. -/
theorem executeFootsteps_first_infeasible_witness :
    2 ≤ ((exampleEnv examplePath (fun r => decide (r.leg = Leg.RIGHT)) true true true
        true).getPath (exampleNav false).ivPlanner).length ∧
    (replanAnswers (callsSince (exampleNav false)
      (executeFootsteps
        (exampleEnv examplePath (fun r => decide (r.leg = Leg.RIGHT)) true true true true)
        exampleCfg (exampleNav false))) = [true] ∧
     planAnswers (callsSince (exampleNav false)
      (executeFootsteps
        (exampleEnv examplePath (fun r => decide (r.leg = Leg.RIGHT)) true true true true)
        exampleCfg (exampleNav false))) = [] ∧
     threadStarts (callsSince (exampleNav false)
      (executeFootsteps
        (exampleEnv examplePath (fun r => decide (r.leg = Leg.RIGHT)) true true true true)
        exampleCfg (exampleNav false))) = 1 ∧
     (dispatched (callsSince (exampleNav false)
      (executeFootsteps
        (exampleEnv examplePath (fun r => decide (r.leg = Leg.RIGHT)) true true true true)
        exampleCfg (exampleNav false)))).length = 1) := by
  have h1 : 2 ≤ ((exampleEnv examplePath (fun r => decide (r.leg = Leg.RIGHT)) true true
      true true).getPath (exampleNav false).ivPlanner).length := by decide
  obtain ⟨wp, obs, t, T, resp, fl, fr, p, _, _, hobs, _, _, hd, hr, hpl, hth⟩ :=
    executeFootsteps_first_infeasible
      (exampleEnv examplePath (fun r => decide (r.leg = Leg.RIGHT)) true true true true)
      exampleCfg (exampleNav false) 2 h1 (by decide!) (by decide!) (by decide!)
  refine ⟨h1, hr, hpl, hth, ?_⟩
  rw [hd, List.length_map, hobs]

end Sequential

section Supervisor

variable (env : Env P) (cfg : Config)

/-- The function run records its plan call first and only adds calls after it. -/
theorem run_trace (s : Navigation P) :
    ∃ l, (run env cfg s).trace = s.trace ++ Event.plan (env.plan s.ivPlanner).1 :: l := by
  have hp : (plan env { s with ivExecutingFootsteps := true }).2.trace =
      s.trace ++ [Event.plan (env.plan s.ivPlanner).1] := rfl
  simp only [run]
  split
  · split
    · exact ⟨[Event.thread_executeFootsteps], by simp [Navigation.emit, hp]⟩
    · obtain ⟨l, hl⟩ := executeFootsteps_alt_extends env cfg
        (plan env { s with ivExecutingFootsteps := true }).2
      exact ⟨l, by rw [hl, hp]; simp⟩
  · exact ⟨[], by simp [hp]⟩

/-- C6, as the code has it: with ivExecutingFootsteps clear, goalPoseCallback calls
setGoal first.  If setGoal fails it returns with no further call.  Only when setGoal
succeeded does it look up the two feet and call setStart; if setStart fails it returns
with no further call; run is entered, with the plan call as its first call, exactly
when setGoal and setStart both succeeded. -/
theorem goalPoseCallback_unlocked (goal_pose : PoseStamped) (s : Navigation P)
    (h : s.ivExecutingFootsteps = false) :
    ∃ (okGoal : Bool) (l : List Event),
      (goalPoseCallback env cfg goal_pose s).trace =
        s.trace ++ Event.setGoal goal_pose.position.x goal_pose.position.y
          (env.getYaw goal_pose.orientation) okGoal :: l ∧
      okGoal = (setGoal env goal_pose s).1 ∧
      (okGoal = false →
        l = [] ∧ goalPoseCallback env cfg goal_pose s = (setGoal env goal_pose s).2) ∧
      (okGoal = true →
        ∃ (fl fr : Transform) (okStart : Bool) (l2 : List Event),
          l = [ Event.getFootTransform cfg.ivIdFootLeft s.ivIdMapFrame s.ivLastRobotTime fl,
                Event.getFootTransform cfg.ivIdFootRight s.ivIdMapFrame s.ivLastRobotTime fr,
                Event.setStart
                  { x := fl.origin.x, y := fl.origin.y, theta := env.getYaw fl.rotation,
                    leg := Leg.LEFT }
                  { x := fr.origin.x, y := fr.origin.y, theta := env.getYaw fr.rotation,
                    leg := Leg.RIGHT }
                  okStart ] ++ l2 ∧
          okStart = (updateStart env cfg (setGoal env goal_pose s).2).1 ∧
          (okStart = false →
            l2 = [] ∧
            goalPoseCallback env cfg goal_pose s =
              (updateStart env cfg (setGoal env goal_pose s).2).2) ∧
          (okStart = true →
            (∃ (okPlan : Bool) (l3 : List Event), l2 = Event.plan okPlan :: l3) ∧
            goalPoseCallback env cfg goal_pose s =
              run env cfg (updateStart env cfg (setGoal env goal_pose s).2).2)) := by
  have hg : (setGoal env goal_pose s).2.trace =
      s.trace ++ [Event.setGoal goal_pose.position.x goal_pose.position.y
        (env.getYaw goal_pose.orientation) (setGoal env goal_pose s).1] := rfl
  have hframe : (setGoal env goal_pose s).2.ivIdMapFrame = s.ivIdMapFrame := rfl
  have htime : (setGoal env goal_pose s).2.ivLastRobotTime = s.ivLastRobotTime := rfl
  by_cases h1 : (setGoal env goal_pose s).1 = true
  · obtain ⟨fl, fr, p, hu⟩ := updateStart_state env cfg (setGoal env goal_pose s).2
    rw [hframe, htime] at hu
    by_cases h2 : (updateStart env cfg (setGoal env goal_pose s).2).1 = true
    · have hr : goalPoseCallback env cfg goal_pose s =
          run env cfg (updateStart env cfg (setGoal env goal_pose s).2).2 := by
        simp only [goalPoseCallback, h, h1, h2, if_true]
        simp
      obtain ⟨l3, hl3⟩ := run_trace env cfg (updateStart env cfg (setGoal env goal_pose s).2).2
      refine ⟨true,
        [ Event.getFootTransform cfg.ivIdFootLeft s.ivIdMapFrame s.ivLastRobotTime fl,
          Event.getFootTransform cfg.ivIdFootRight s.ivIdMapFrame s.ivLastRobotTime fr,
          Event.setStart
            { x := fl.origin.x, y := fl.origin.y, theta := env.getYaw fl.rotation,
              leg := Leg.LEFT }
            { x := fr.origin.x, y := fr.origin.y, theta := env.getYaw fr.rotation,
              leg := Leg.RIGHT }
            true ] ++
          Event.plan
            (env.plan (updateStart env cfg (setGoal env goal_pose s).2).2.ivPlanner).1 :: l3,
        ?_, h1.symm, by simp, fun _ => ⟨fl, fr, true, _, rfl, h2.symm,
        by simp, fun _ => ⟨⟨_, l3, rfl⟩, hr⟩⟩⟩
      rw [hr, hl3, hu, hg, h1, h2]
      simp
    · have hr : goalPoseCallback env cfg goal_pose s =
          (updateStart env cfg (setGoal env goal_pose s).2).2 := by
        simp only [goalPoseCallback, h, h1, h2, if_true]
        simp
      rw [Bool.not_eq_true] at h2
      refine ⟨true,
        [ Event.getFootTransform cfg.ivIdFootLeft s.ivIdMapFrame s.ivLastRobotTime fl,
          Event.getFootTransform cfg.ivIdFootRight s.ivIdMapFrame s.ivLastRobotTime fr,
          Event.setStart
            { x := fl.origin.x, y := fl.origin.y, theta := env.getYaw fl.rotation,
              leg := Leg.LEFT }
            { x := fr.origin.x, y := fr.origin.y, theta := env.getYaw fr.rotation,
              leg := Leg.RIGHT }
            false ] ++ [],
        ?_, h1.symm, by simp, fun _ => ⟨fl, fr, false, [], rfl, h2.symm,
        fun _ => ⟨rfl, hr⟩, by simp⟩⟩
      rw [hr, hu, hg, h1, h2]
      simp
  · have hr : goalPoseCallback env cfg goal_pose s = (setGoal env goal_pose s).2 := by
      simp only [goalPoseCallback, h, h1]
      simp
    rw [Bool.not_eq_true] at h1
    refine ⟨false, [], ?_, h1.symm, fun _ => ⟨rfl, hr⟩, by simp⟩
    rw [hr, hg, h1]

/-- Witness of C6 as amended: the unlocked example state with a planner that accepts
goal and start: the calls are setGoal, two lookups, setStart, plan, and the thread. -/
theorem goalPoseCallback_unlocked_witness :
    (exampleNav false).ivExecutingFootsteps = false ∧
    ∃ (okGoal : Bool) (l : List Event),
      (goalPoseCallback (exampleEnv examplePath (fun _ => false) true true true true)
        exampleCfg exampleGoal (exampleNav false)).trace =
        (exampleNav false).trace ++ Event.setGoal exampleGoal.position.x
          exampleGoal.position.y
          ((exampleEnv examplePath (fun _ => false) true true true true).getYaw
            exampleGoal.orientation) okGoal :: l := by
  obtain ⟨okGoal, l, hl, -⟩ := goalPoseCallback_unlocked
    (exampleEnv examplePath (fun _ => false) true true true true) exampleCfg exampleGoal
    (exampleNav false) rfl
  exact ⟨rfl, okGoal, l, hl⟩

/-- C6, the counterexample to the order "setStart first": on the unlocked example
state, when the planner rejects the goal the only call is setGoal (no foot lookup, no
setStart); when it accepts the goal and rejects the start, setGoal has been called
before the lookups and setStart. -/
theorem goalPoseCallback_order_counterexample :
    (exampleNav false).ivExecutingFootsteps = false ∧
    (goalPoseCallback (exampleEnv examplePath (fun _ => false) false true true true)
      exampleCfg exampleGoal (exampleNav false)).trace = [Event.setGoal 1 2 0 false] ∧
    setStartAnswers
      (goalPoseCallback (exampleEnv examplePath (fun _ => false) false true true true)
        exampleCfg exampleGoal (exampleNav false)).trace = [] ∧
    (goalPoseCallback (exampleEnv examplePath (fun _ => false) true false true true)
      exampleCfg exampleGoal (exampleNav false)).trace =
      [ Event.setGoal 1 2 0 true,
        Event.getFootTransform "/l_sole" "map" 0
          { origin := { x := 1, y := 1, z := 0 },
            rotation := { x := 0, y := 0, z := 0, w := 1 } },
        Event.getFootTransform "/r_sole" "map" 0
          { origin := { x := 0, y := 0, z := 0 },
            rotation := { x := 0, y := 0, z := 0, w := 1 } },
        Event.setStart { x := 1, y := 1, theta := 0, leg := Leg.LEFT }
          { x := 0, y := 0, theta := 0, leg := Leg.RIGHT } false ] := by
  decide!

end Supervisor

section Feedback

variable (env : Env P) (cfg : Config)

/-- C10: feedbackCallback with idx = executed_steps_idx (the number of executed
footsteps minus ivExecutionShift, as an int).  If idx < 0 or idx = ivControlStepIdx the
state is returned as it is, with no call made.  If idx = ivControlStepIdx + 1 (and
idx is not negative) and the planned state at ivControlStepIdx + 1 + ivResetStepIdx is
within tolerance of the looked-up foot, ivControlStepIdx grows by one, ivEqualStepsNum
becomes 0 and nothing else changes but the recorded lookup; if it is not within
tolerance only the lookup is recorded: no cancelGoal, no sendGoal. -/
theorem feedbackCallback_cases (fb : ExecFootstepsFeedback) (s : Navigation P) :
    (-(2 : ℤ) ^ 31 ≤ (fb.executed_footsteps.length : ℤ) - cfg.ivExecutionShift →
      (fb.executed_footsteps.length : ℤ) - cfg.ivExecutionShift < 2 ^ 31 →
      executed_steps_idx cfg fb = (fb.executed_footsteps.length : ℤ) - cfg.ivExecutionShift) ∧
    (executed_steps_idx cfg fb < 0 ∨ executed_steps_idx cfg fb = s.ivControlStepIdx →
      feedbackCallback env cfg fb s = some s) ∧
    (∀ planned : State,
      0 ≤ executed_steps_idx cfg fb →
      executed_steps_idx cfg fb = s.ivControlStepIdx + 1 →
      0 ≤ s.ivControlStepIdx + 1 + s.ivResetStepIdx →
      (env.getPath s.ivPlanner)[(s.ivControlStepIdx + 1 + s.ivResetStepIdx).toNat]? =
        some planned →
      (performanceValid env cfg planned
          { x := (getFootTransform env
                (if planned.leg = Leg.RIGHT then cfg.ivIdFootRight else cfg.ivIdFootLeft)
                s.ivIdMapFrame (env.now s.trace) s).1.origin.x,
            y := (getFootTransform env
                (if planned.leg = Leg.RIGHT then cfg.ivIdFootRight else cfg.ivIdFootLeft)
                s.ivIdMapFrame (env.now s.trace) s).1.origin.y,
            theta := env.getYaw (getFootTransform env
                (if planned.leg = Leg.RIGHT then cfg.ivIdFootRight else cfg.ivIdFootLeft)
                s.ivIdMapFrame (env.now s.trace) s).1.rotation,
            leg := planned.leg } = true →
        feedbackCallback env cfg fb s =
          some { s with
            ivControlStepIdx := s.ivControlStepIdx + 1
            ivEqualStepsNum := 0
            trace := s.trace ++
              [ Event.getFootTransform
                  (if planned.leg = Leg.RIGHT then cfg.ivIdFootRight else cfg.ivIdFootLeft)
                  s.ivIdMapFrame (env.now s.trace)
                  (getFootTransform env
                    (if planned.leg = Leg.RIGHT then cfg.ivIdFootRight
                      else cfg.ivIdFootLeft)
                    s.ivIdMapFrame (env.now s.trace) s).1 ] }) ∧
      (performanceValid env cfg planned
          { x := (getFootTransform env
                (if planned.leg = Leg.RIGHT then cfg.ivIdFootRight else cfg.ivIdFootLeft)
                s.ivIdMapFrame (env.now s.trace) s).1.origin.x,
            y := (getFootTransform env
                (if planned.leg = Leg.RIGHT then cfg.ivIdFootRight else cfg.ivIdFootLeft)
                s.ivIdMapFrame (env.now s.trace) s).1.origin.y,
            theta := env.getYaw (getFootTransform env
                (if planned.leg = Leg.RIGHT then cfg.ivIdFootRight else cfg.ivIdFootLeft)
                s.ivIdMapFrame (env.now s.trace) s).1.rotation,
            leg := planned.leg } = false →
        feedbackCallback env cfg fb s =
          some { s with
            trace := s.trace ++
              [ Event.getFootTransform
                  (if planned.leg = Leg.RIGHT then cfg.ivIdFootRight else cfg.ivIdFootLeft)
                  s.ivIdMapFrame (env.now s.trace)
                  (getFootTransform env
                    (if planned.leg = Leg.RIGHT then cfg.ivIdFootRight
                      else cfg.ivIdFootLeft)
                    s.ivIdMapFrame (env.now s.trace) s).1 ] })) := by
  refine ⟨?_, ?_, ?_⟩
  · intro hlo hhi
    unfold executed_steps_idx wrapInt32
    omega
  · rintro (h | h)
    · simp [feedbackCallback, h]
    · by_cases hneg : executed_steps_idx cfg fb < 0
      · simp [feedbackCallback, hneg]
      · simp [feedbackCallback, hneg, h]
  · intro planned h0 h1 hi hp
    have hneg : ¬ executed_steps_idx cfg fb < 0 := not_lt.mpr h0
    have hne : ¬ executed_steps_idx cfg fb = s.ivControlStepIdx := by omega
    have hi2 : ¬ s.ivControlStepIdx + 1 + s.ivResetStepIdx < 0 := not_lt.mpr hi
    have hge : ¬ executed_steps_idx cfg fb ≥ s.ivControlStepIdx + 2 := by omega
    constructor
    · intro hv
      simp only [feedbackCallback, hneg, hne, hi2, hp, hge, hv, if_false, if_true]
      rfl
    · intro hv
      simp only [feedbackCallback, hneg, hne, hi2, hp, hge, hv, if_false, if_true]
      simp [getFootTransform, Navigation.emit]

/-- Witness of C10: three executed footsteps reported to the active example session,
whose left foot stands on the planned state 1: ivControlStepIdx goes from 0 to 1. -/
theorem feedbackCallback_cases_witness :
    executed_steps_idx exampleCfgAlt (exampleFeedback 3) = exampleActive.ivControlStepIdx + 1 ∧
    (feedbackCallback (exampleEnv examplePath (fun _ => false) true true true true)
      exampleCfgAlt (exampleFeedback 3) exampleActive).map
        (fun s => (s.ivControlStepIdx, s.ivEqualStepsNum, s.ivResetStepIdx)) =
      some (1, 0, 0) := by
  have h := ((feedbackCallback_cases
    (exampleEnv examplePath (fun _ => false) true true true true) exampleCfgAlt
    (exampleFeedback 3) exampleActive).2.2
    { x := 1, y := 1, theta := 0, leg := Leg.LEFT }
    (by decide!) (by decide!) (by decide!) (by decide!)).1 (by decide!)
  refine ⟨by decide!, ?_⟩
  rw [h]
  rfl

/-- C7, the failing input: the second step of the example path is infeasible and
setStart rejects the re-resolved start pose.  executeFootsteps returns from inside its
loop with ivExecutingFootsteps still set, having called neither replan nor plan and
started no thread. -/
theorem start_unreachable_keeps_lock :
    (executeFootsteps
      (exampleEnv examplePath (fun r => decide (r.leg = Leg.RIGHT)) true false true true)
      exampleCfg (exampleNav false)).ivExecutingFootsteps = true ∧
    clipVerdicts
      (exampleEnv examplePath (fun r => decide (r.leg = Leg.RIGHT)) true false true true)
      exampleCfg
      (callsSince (exampleNav false) (executeFootsteps
        (exampleEnv examplePath (fun r => decide (r.leg = Leg.RIGHT)) true false true true)
        exampleCfg (exampleNav false))) = [true, false] ∧
    setStartAnswers (callsSince (exampleNav false) (executeFootsteps
      (exampleEnv examplePath (fun r => decide (r.leg = Leg.RIGHT)) true false true true)
      exampleCfg (exampleNav false))) = [false] ∧
    replanAnswers (callsSince (exampleNav false) (executeFootsteps
      (exampleEnv examplePath (fun r => decide (r.leg = Leg.RIGHT)) true false true true)
      exampleCfg (exampleNav false))) = [] ∧
    planAnswers (callsSince (exampleNav false) (executeFootsteps
      (exampleEnv examplePath (fun r => decide (r.leg = Leg.RIGHT)) true false true true)
      exampleCfg (exampleNav false))) = [] ∧
    threadStarts (callsSince (exampleNav false) (executeFootsteps
      (exampleEnv examplePath (fun r => decide (r.leg = Leg.RIGHT)) true false true true)
      exampleCfg (exampleNav false))) = 0 := by
  decide!

/-- The same failure in feedbackCallback: the actuator is two steps ahead, the rest of
the path is infeasible from the executed pose and setStart rejects the start pose.  The
callback cancels the goal and returns with ivExecutingFootsteps still set. -/
theorem feedbackCallback_start_unreachable :
    (feedbackCallback
      (exampleEnv examplePath (fun r => decide (r.leg = Leg.RIGHT)) true false true true)
      exampleCfgAlt (exampleFeedback 4) exampleActive).map
        (fun s => (s.ivExecutingFootsteps, setStartAnswers s.trace, replanAnswers s.trace,
          planAnswers s.trace, decide (Event.cancelGoal ∈ s.trace))) =
      some (true, [false], [], [], true) := by
  decide!

/-- The failures of C7 that do clear the lock: a failed plan call in run. -/
theorem run_plan_failure_clears_lock (s : Navigation P)
    (h : (env.plan s.ivPlanner).1 = false) :
    (run env cfg s).ivExecutingFootsteps = false := by
  simp [run, plan, h]

/-- The failures of C7 that do clear the lock: every terminal state in doneCallback. -/
theorem doneCallback_clears_lock (state : SimpleClientGoalState) (s : Navigation P) :
    (doneCallback state s).ivExecutingFootsteps = false := rfl

end Feedback

section Asynchronous

variable (env : Env P) (cfg : Config)

/-- The for loop of getFootstepsFromPath: it records one clipping call per state up to
the first infeasible footstep.  Either every footstep is feasible, the loop returns true
and the responses are appended to `footsteps`; or the last recorded call is the first
infeasible one and the loop returns false. -/
theorem getFootstepsFromPath.for_loop_spec (wps : List State) :
    ∀ (last : Transform) (footsteps : List StepTarget) (s : Navigation P),
      ∃ rs : List StepTarget,
        (getFootstepsFromPath.loop env cfg last wps footsteps s).2.2 =
          { s with trace := s.trace ++ pathCalls env last wps rs } ∧
        (((getFootstepsFromPath.loop env cfg last wps footsteps s).1 = true ∧
            rs.length = wps.length ∧
            (getFootstepsFromPath.loop env cfg last wps footsteps s).2.1 = footsteps ++ rs ∧
            clipVerdicts env cfg (pathCalls env last wps rs) =
              List.replicate wps.length true) ∨
          ((getFootstepsFromPath.loop env cfg last wps footsteps s).1 = false ∧
            0 < rs.length ∧ rs.length ≤ wps.length ∧
            clipVerdicts env cfg (pathCalls env last wps rs) =
              List.replicate (rs.length - 1) true ++ [false])) := by
  induction wps with
  | nil =>
    intro last footsteps s
    refine ⟨[], ?_, Or.inl ⟨rfl, rfl, by simp [getFootstepsFromPath.loop], rfl⟩⟩
    simp [getFootstepsFromPath.loop, pathCalls]
  | cons wp rest ih =>
    intro last footsteps s
    by_cases hv : performanceValidClip env cfg (rawFootstep env last wp)
        (env.clipFootstep s.trace (rawFootstep env last wp)) = true
    · have h1 : (getFootstep env cfg last wp s).1 = true := by
        rw [getFootstep_fst]; exact hv
      have hloop : getFootstepsFromPath.loop env cfg last (wp :: rest) footsteps s =
          getFootstepsFromPath.loop env cfg (poseOfState env wp) rest
            (footsteps ++ [env.clipFootstep s.trace (rawFootstep env last wp)])
            (s.emit (Event.clipFootstep (rawFootstep env last wp)
              (env.clipFootstep s.trace (rawFootstep env last wp)))) := by
        rw [getFootstepsFromPath.loop, if_pos h1,
          getFootstep_step_of_valid env cfg last wp s hv, getFootstep_state]
        rfl
      obtain ⟨rs, hs, hcase⟩ := ih (poseOfState env wp)
        (footsteps ++ [env.clipFootstep s.trace (rawFootstep env last wp)])
        (s.emit (Event.clipFootstep (rawFootstep env last wp)
          (env.clipFootstep s.trace (rawFootstep env last wp))))
      refine ⟨env.clipFootstep s.trace (rawFootstep env last wp) :: rs, ?_, ?_⟩
      · rw [hloop, hs]
        simp [Navigation.emit, pathCalls]
      · rw [hloop]
        rcases hcase with ⟨ht, hl, hf, hver⟩ | ⟨ht, hpos, hl, hver⟩
        · left
          refine ⟨ht, by simp [hl], by rw [hf]; simp, ?_⟩
          simp [pathCalls, clipVerdicts, hv, hver, List.replicate_succ]
        · right
          refine ⟨ht, by simp, by simp [hl], ?_⟩
          obtain ⟨n, hn⟩ : ∃ n, rs.length = n + 1 := ⟨rs.length - 1, by omega⟩
          simp [pathCalls, clipVerdicts, hv, hver, hn, List.replicate_succ]
    · have h1 : ¬ (getFootstep env cfg last wp s).1 = true := by
        rw [getFootstep_fst]; exact hv
      rw [Bool.not_eq_true] at hv
      refine ⟨[env.clipFootstep s.trace (rawFootstep env last wp)], ?_, Or.inr ⟨?_, ?_, ?_, ?_⟩⟩
      · rw [getFootstepsFromPath.loop, if_neg h1, getFootstep_state]
        cases rest <;> simp [Navigation.emit, pathCalls]
      · rw [getFootstepsFromPath.loop, if_neg h1]
      · simp
      · simp
      · cases rest <;> simp [pathCalls, clipVerdicts, hv]

/-- The goals sent in a concatenated history. -/
theorem sentGoals_append (l1 l2 : List Event) :
    sentGoals (l1 ++ l2) = sentGoals l1 ++ sentGoals l2 := by
  induction l1 with
  | nil => rfl
  | cons e es ih => cases e <;> simp [sentGoals, ih]

/-- The clipping calls of getFootstepsFromPath send no goal, cancel none, dispatch no
step and call no planner function. -/
theorem pathCalls_calls (wps : List State) :
    ∀ (last : Transform) (rs : List StepTarget),
      sentGoals (pathCalls env last wps rs) = [] ∧
      cancelCalls (pathCalls env last wps rs) = 0 ∧
      dispatched (pathCalls env last wps rs) = [] ∧
      setStartAnswers (pathCalls env last wps rs) = [] ∧
      replanAnswers (pathCalls env last wps rs) = [] ∧
      planAnswers (pathCalls env last wps rs) = [] := by
  induction wps with
  | nil =>
    intro last rs
    simp [pathCalls, sentGoals, cancelCalls, dispatched, setStartAnswers, replanAnswers,
      planAnswers]
  | cons wp rest ih =>
    intro last rs
    cases rs with
    | nil =>
      simp [pathCalls, sentGoals, cancelCalls, dispatched, setStartAnswers, replanAnswers,
        planAnswers]
    | cons r rs =>
      obtain ⟨h1, h2, h3, h4, h5, h6⟩ := ih (poseOfState env wp) rs
      simp [pathCalls, sentGoals, cancelCalls, dispatched, setStartAnswers, replanAnswers,
        planAnswers, h1, h2, h3, h4, h5, h6]

/-- The function executeFootsteps_alt on a path of at least two states, in terms of the
for loop of getFootstepsFromPath over the states after the first. -/
theorem executeFootsteps_alt_of_path (s : Navigation P)
    (hlen : 2 ≤ (env.getPath s.ivPlanner).length) :
    executeFootsteps_alt env cfg s =
      if (getFootstepsFromPath.loop env cfg
          (poseOfState env (executeFootsteps_alt.support_leg env s.ivPlanner))
          (env.getPath s.ivPlanner).tail [] (s.emit Event.waitForServer)).1 = true then
        ({ (getFootstepsFromPath.loop env cfg
              (poseOfState env (executeFootsteps_alt.support_leg env s.ivPlanner))
              (env.getPath s.ivPlanner).tail [] (s.emit Event.waitForServer)).2.2 with
            ivEqualStepsNum := 0, ivControlStepIdx := 0, ivResetStepIdx := 0,
            ivLastStepValid := false }).emit
          (Event.sendGoal
            { footsteps := (getFootstepsFromPath.loop env cfg
                (poseOfState env (executeFootsteps_alt.support_leg env s.ivPlanner))
                (env.getPath s.ivPlanner).tail [] (s.emit Event.waitForServer)).2.1,
              feedback_frequence := cfg.ivFeedbackFrequency })
      else
        { (getFootstepsFromPath.loop env cfg
            (poseOfState env (executeFootsteps_alt.support_leg env s.ivPlanner))
            (env.getPath s.ivPlanner).tail [] (s.emit Event.waitForServer)).2.2 with
          ivExecutingFootsteps := false } := by
  have hn : ¬ (env.getPath s.ivPlanner).length ≤ 1 := by omega
  have hdrop : List.drop (1 : ℤ).toNat (env.getPath s.ivPlanner) =
      (env.getPath s.ivPlanner).tail := by
    simp [List.drop_one]
  rw [executeFootsteps_alt, dif_neg hn]
  simp only [getFootstepsFromPath, Navigation.emit, hdrop]
  rfl

/-- C12: on a path of at least two states executeFootsteps_alt waits for the action
server and then computes the footsteps for the states 1 to n-1 in path order, the first
from the planner's start foot on the side of state 0, each later one from the state
before it, one clipping call each, up to the first infeasible one.  If all n-1 are
feasible it sets ivEqualStepsNum, ivControlStepIdx and ivResetStepIdx to 0 and
ivLastStepValid to false and sends exactly one goal holding the n-1 clipped footsteps in
path order with the configured feedback frequency; otherwise it sends no goal and
clears ivExecutingFootsteps. -/
theorem executeFootsteps_alt_start (s : Navigation P)
    (hlen : 2 ≤ (env.getPath s.ivPlanner).length) :
    ∃ rs : List StepTarget,
      (rs.length = (env.getPath s.ivPlanner).length - 1 ∧
        clipVerdicts env cfg
          (pathCalls env (poseOfState env (executeFootsteps_alt.support_leg env s.ivPlanner))
            (env.getPath s.ivPlanner).tail rs) =
          List.replicate ((env.getPath s.ivPlanner).length - 1) true ∧
        executeFootsteps_alt env cfg s =
          { s with
            ivEqualStepsNum := 0
            ivControlStepIdx := 0
            ivResetStepIdx := 0
            ivLastStepValid := false
            trace := s.trace ++
              (Event.waitForServer ::
                pathCalls env
                  (poseOfState env (executeFootsteps_alt.support_leg env s.ivPlanner))
                  (env.getPath s.ivPlanner).tail rs ++
                [Event.sendGoal
                  { footsteps := rs, feedback_frequence := cfg.ivFeedbackFrequency }]) } ∧
        sentGoals (callsSince s (executeFootsteps_alt env cfg s)) =
          [{ footsteps := rs, feedback_frequence := cfg.ivFeedbackFrequency }]) ∨
      (0 < rs.length ∧ rs.length ≤ (env.getPath s.ivPlanner).length - 1 ∧
        clipVerdicts env cfg
          (pathCalls env (poseOfState env (executeFootsteps_alt.support_leg env s.ivPlanner))
            (env.getPath s.ivPlanner).tail rs) =
          List.replicate (rs.length - 1) true ++ [false] ∧
        executeFootsteps_alt env cfg s =
          { s with
            ivExecutingFootsteps := false
            trace := s.trace ++
              (Event.waitForServer ::
                pathCalls env
                  (poseOfState env (executeFootsteps_alt.support_leg env s.ivPlanner))
                  (env.getPath s.ivPlanner).tail rs) } ∧
        sentGoals (callsSince s (executeFootsteps_alt env cfg s)) = []) := by
  have hex := executeFootsteps_alt_of_path env cfg s hlen
  obtain ⟨rs, hs, hcase⟩ := getFootstepsFromPath.for_loop_spec env cfg
    (env.getPath s.ivPlanner).tail
    (poseOfState env (executeFootsteps_alt.support_leg env s.ivPlanner)) []
    (s.emit Event.waitForServer)
  obtain ⟨hsg, -⟩ := pathCalls_calls env (env.getPath s.ivPlanner).tail
    (poseOfState env (executeFootsteps_alt.support_leg env s.ivPlanner)) rs
  refine ⟨rs, ?_⟩
  rcases hcase with ⟨ht, hl, hf, hver⟩ | ⟨ht, hpos, hl, hver⟩
  · left
    rw [if_pos ht, hf, hs] at hex
    have hres : executeFootsteps_alt env cfg s =
        { s with
          ivEqualStepsNum := 0
          ivControlStepIdx := 0
          ivResetStepIdx := 0
          ivLastStepValid := false
          trace := s.trace ++
            (Event.waitForServer ::
              pathCalls env
                (poseOfState env (executeFootsteps_alt.support_leg env s.ivPlanner))
                (env.getPath s.ivPlanner).tail rs ++
              [Event.sendGoal
                { footsteps := rs, feedback_frequence := cfg.ivFeedbackFrequency }]) } := by
      rw [hex]
      simp [Navigation.emit]
    have hlt : (env.getPath s.ivPlanner).tail.length =
        (env.getPath s.ivPlanner).length - 1 := by simp
    refine ⟨by rw [hl, hlt], by rw [hver, hlt], hres, ?_⟩
    rw [callsSince_eq s _ _ (by rw [hres])]
    simp [sentGoals, sentGoals_append, hsg]
  · right
    rw [if_neg (by simp [ht]), hs] at hex
    have hres : executeFootsteps_alt env cfg s =
        { s with
          ivExecutingFootsteps := false
          trace := s.trace ++
            (Event.waitForServer ::
              pathCalls env
                (poseOfState env (executeFootsteps_alt.support_leg env s.ivPlanner))
                (env.getPath s.ivPlanner).tail rs) } := by
      rw [hex]
      simp [Navigation.emit]
    have hlt : (env.getPath s.ivPlanner).tail.length =
        (env.getPath s.ivPlanner).length - 1 := by simp
    refine ⟨hpos, by rw [← hlt]; exact hl, hver, hres, ?_⟩
    rw [callsSince_eq s _ _ (by rw [hres])]
    simp [sentGoals, hsg]

end Asynchronous

section Deviation

variable (env : Env P) (cfg : Config)

/-- The branch of feedbackCallback for an actuator two or more steps ahead, in terms of
the for loop of getFootstepsFromPath and the replanning branch. -/
theorem feedbackCallback_of_ahead (fb : ExecFootstepsFeedback) (s : Navigation P)
    (planned : State)
    (h0 : 0 ≤ executed_steps_idx cfg fb)
    (h2 : s.ivControlStepIdx + 2 ≤ executed_steps_idx cfg fb)
    (hi : 0 ≤ s.ivControlStepIdx + 1 + s.ivResetStepIdx)
    (hp : (env.getPath s.ivPlanner)[(s.ivControlStepIdx + 1 + s.ivResetStepIdx).toNat]? =
      some planned)
    (hr : 0 ≤ executed_steps_idx cfg fb + s.ivResetStepIdx ∧
      executed_steps_idx cfg fb + s.ivResetStepIdx ≤
        ((env.getPath s.ivPlanner).length : ℤ)) :
    feedbackCallback env cfg fb s =
      some (if (getFootstepsFromPath.loop env cfg
            (poseOfState env (feedbackCallback.executed env planned
              (getFootTransform env (feedbackCallback.foot_id cfg planned) s.ivIdMapFrame
                (env.now s.trace) s).1))
            ((env.getPath s.ivPlanner).drop
              (executed_steps_idx cfg fb + s.ivResetStepIdx).toNat) []
            ((getFootTransform env (feedbackCallback.foot_id cfg planned) s.ivIdMapFrame
              (env.now s.trace) s).2.emit Event.cancelGoal)).1 = true then
          ({ (getFootstepsFromPath.loop env cfg
              (poseOfState env (feedbackCallback.executed env planned
                (getFootTransform env (feedbackCallback.foot_id cfg planned) s.ivIdMapFrame
                  (env.now s.trace) s).1))
              ((env.getPath s.ivPlanner).drop
                (executed_steps_idx cfg fb + s.ivResetStepIdx).toNat) []
              ((getFootTransform env (feedbackCallback.foot_id cfg planned) s.ivIdMapFrame
                (env.now s.trace) s).2.emit Event.cancelGoal)).2.2 with
            ivResetStepIdx := (getFootstepsFromPath.loop env cfg
              (poseOfState env (feedbackCallback.executed env planned
                (getFootTransform env (feedbackCallback.foot_id cfg planned) s.ivIdMapFrame
                  (env.now s.trace) s).1))
              ((env.getPath s.ivPlanner).drop
                (executed_steps_idx cfg fb + s.ivResetStepIdx).toNat) []
              ((getFootTransform env (feedbackCallback.foot_id cfg planned) s.ivIdMapFrame
                (env.now s.trace) s).2.emit Event.cancelGoal)).2.2.ivResetStepIdx +
              ((getFootstepsFromPath.loop env cfg
              (poseOfState env (feedbackCallback.executed env planned
                (getFootTransform env (feedbackCallback.foot_id cfg planned) s.ivIdMapFrame
                  (env.now s.trace) s).1))
              ((env.getPath s.ivPlanner).drop
                (executed_steps_idx cfg fb + s.ivResetStepIdx).toNat) []
              ((getFootTransform env (feedbackCallback.foot_id cfg planned) s.ivIdMapFrame
                (env.now s.trace) s).2.emit Event.cancelGoal)).2.2.ivControlStepIdx + 1),
            ivControlStepIdx := 0 }).emit
            (Event.sendGoal
              { footsteps := (getFootstepsFromPath.loop env cfg
                  (poseOfState env (feedbackCallback.executed env planned
                    (getFootTransform env (feedbackCallback.foot_id cfg planned)
                      s.ivIdMapFrame (env.now s.trace) s).1))
                  ((env.getPath s.ivPlanner).drop
                    (executed_steps_idx cfg fb + s.ivResetStepIdx).toNat) []
                  ((getFootTransform env (feedbackCallback.foot_id cfg planned)
                    s.ivIdMapFrame (env.now s.trace) s).2.emit Event.cancelGoal)).2.1,
                feedback_frequence := 0 })
        else
          feedbackCallback.replanning env cfg
            (getFootstepsFromPath.loop env cfg
              (poseOfState env (feedbackCallback.executed env planned
                (getFootTransform env (feedbackCallback.foot_id cfg planned) s.ivIdMapFrame
                  (env.now s.trace) s).1))
              ((env.getPath s.ivPlanner).drop
                (executed_steps_idx cfg fb + s.ivResetStepIdx).toNat) []
              ((getFootTransform env (feedbackCallback.foot_id cfg planned) s.ivIdMapFrame
                (env.now s.trace) s).2.emit Event.cancelGoal)).2.2) := by
  have hneg : ¬ executed_steps_idx cfg fb < 0 := not_lt.mpr h0
  have hne : ¬ executed_steps_idx cfg fb = s.ivControlStepIdx := by omega
  have hi2 : ¬ s.ivControlStepIdx + 1 + s.ivResetStepIdx < 0 := not_lt.mpr hi
  have hge : executed_steps_idx cfg fb ≥ s.ivControlStepIdx + 2 := h2
  have hr2 : 0 ≤ executed_steps_idx cfg fb +
        ((getFootTransform env
          (if planned.leg = Leg.RIGHT then cfg.ivIdFootRight else cfg.ivIdFootLeft)
          s.ivIdMapFrame (env.now s.trace) s).2.emit Event.cancelGoal).ivResetStepIdx ∧
      executed_steps_idx cfg fb +
        ((getFootTransform env
          (if planned.leg = Leg.RIGHT then cfg.ivIdFootRight else cfg.ivIdFootLeft)
          s.ivIdMapFrame (env.now s.trace) s).2.emit Event.cancelGoal).ivResetStepIdx ≤
        ((env.getPath ((getFootTransform env
          (if planned.leg = Leg.RIGHT then cfg.ivIdFootRight else cfg.ivIdFootLeft)
          s.ivIdMapFrame (env.now s.trace) s).2.emit Event.cancelGoal).ivPlanner).length : ℤ) :=
    hr
  rw [feedbackCallback]
  simp only [hneg, hne, hi2, hp, hge, if_false, if_true]
  rw [dif_pos hr2]
  have key : ∀ r : Bool × List StepTarget × Navigation P,
      (if r.1 = true then
          some (({ r.2.2 with
              ivResetStepIdx := r.2.2.ivResetStepIdx + (r.2.2.ivControlStepIdx + 1),
              ivControlStepIdx := 0 }).emit
            (Event.sendGoal { footsteps := r.2.1, feedback_frequence := 0 }))
        else if (updateStart env cfg r.2.2).1 = true then
          if (replan env (updateStart env cfg r.2.2).2).1 = true then
            some (executeFootsteps_alt env cfg (replan env (updateStart env cfg r.2.2).2).2)
          else
            some (run env cfg (replan env (updateStart env cfg r.2.2).2).2)
        else
          some (updateStart env cfg r.2.2).2) =
        some (if r.1 = true then
          ({ r.2.2 with
              ivResetStepIdx := r.2.2.ivResetStepIdx + (r.2.2.ivControlStepIdx + 1),
              ivControlStepIdx := 0 }).emit
            (Event.sendGoal { footsteps := r.2.1, feedback_frequence := 0 })
        else feedbackCallback.replanning env cfg r.2.2) := by
    intro r
    simp only [feedbackCallback.replanning]
    split_ifs <;> rfl
  exact key _

/-- The function executeFootsteps_alt leaves ivControlStepIdx as it is or sets it to 0. -/
theorem executeFootsteps_alt_ctrl (s : Navigation P) :
    (executeFootsteps_alt env cfg s).ivControlStepIdx = s.ivControlStepIdx ∨
      (executeFootsteps_alt env cfg s).ivControlStepIdx = 0 := by
  by_cases hlen : 2 ≤ (env.getPath s.ivPlanner).length
  · rw [executeFootsteps_alt_of_path env cfg s hlen]
    obtain ⟨rs, hs, -⟩ := getFootstepsFromPath.for_loop_spec env cfg
      (env.getPath s.ivPlanner).tail
      (poseOfState env (executeFootsteps_alt.support_leg env s.ivPlanner)) []
      (s.emit Event.waitForServer)
    split
    · right; rfl
    · left
      rw [hs]
      rfl
  · left
    have hn : (env.getPath s.ivPlanner).length ≤ 1 := by omega
    rw [executeFootsteps_alt, dif_pos hn]

/-- The function run leaves ivControlStepIdx as it is or sets it to 0. -/
theorem run_ctrl (s : Navigation P) :
    (run env cfg s).ivControlStepIdx = s.ivControlStepIdx ∨
      (run env cfg s).ivControlStepIdx = 0 := by
  simp only [run]
  split
  · split
    · left; rfl
    · exact executeFootsteps_alt_ctrl env cfg _
  · left; rfl

/-- The replanning branch of feedbackCallback: the start pose is resolved and handed to
setStart; on failure the callback returns; otherwise replan is called, and when replan
fails run is entered with its plan call.  ivControlStepIdx is kept or set to 0. -/
theorem feedbackCallback.replanning_branch_spec (s : Navigation P) :
    ∃ (fl fr : Transform) (okStart : Bool) (l : List Event),
      (feedbackCallback.replanning env cfg s).trace = s.trace ++
        ([ Event.getFootTransform cfg.ivIdFootLeft s.ivIdMapFrame s.ivLastRobotTime fl,
           Event.getFootTransform cfg.ivIdFootRight s.ivIdMapFrame s.ivLastRobotTime fr,
           Event.setStart
             { x := fl.origin.x, y := fl.origin.y, theta := env.getYaw fl.rotation,
               leg := Leg.LEFT }
             { x := fr.origin.x, y := fr.origin.y, theta := env.getYaw fr.rotation,
               leg := Leg.RIGHT }
             okStart ] ++ l) ∧
      okStart = (updateStart env cfg s).1 ∧
      (okStart = false → l = []) ∧
      (okStart = true → ∃ (okReplan : Bool) (l2 : List Event),
        l = Event.replan okReplan :: l2 ∧
        okReplan = (replan env (updateStart env cfg s).2).1 ∧
        (okReplan = false → ∃ (okPlan : Bool) (l3 : List Event),
          l2 = Event.plan okPlan :: l3)) ∧
      ((feedbackCallback.replanning env cfg s).ivControlStepIdx = s.ivControlStepIdx ∨
        (feedbackCallback.replanning env cfg s).ivControlStepIdx = 0) := by
  obtain ⟨fl, fr, p, hu⟩ := updateStart_state env cfg s
  have hctrl : (updateStart env cfg s).2.ivControlStepIdx = s.ivControlStepIdx := by
    rw [hu]
  by_cases h1 : (updateStart env cfg s).1 = true
  · have hrt : (replan env (updateStart env cfg s).2).2.trace =
        (updateStart env cfg s).2.trace ++
          [Event.replan (replan env (updateStart env cfg s).2).1] := rfl
    have hrc : (replan env (updateStart env cfg s).2).2.ivControlStepIdx =
        s.ivControlStepIdx := by
      rw [← hctrl]
      rfl
    by_cases h2 : (replan env (updateStart env cfg s).2).1 = true
    · have hr : feedbackCallback.replanning env cfg s =
          executeFootsteps_alt env cfg (replan env (updateStart env cfg s).2).2 := by
        simp only [feedbackCallback.replanning, h1, h2, if_true]
      obtain ⟨l2, hl2⟩ := executeFootsteps_alt_extends env cfg
        (replan env (updateStart env cfg s).2).2
      refine ⟨fl, fr, true, Event.replan true :: l2, ?_, h1.symm, by simp,
        fun _ => ⟨true, l2, rfl, h2.symm, by simp⟩, ?_⟩
      · rw [hr, hl2, hrt, h2, hu, h1]
        simp
      · rw [hr, ← hrc]
        exact executeFootsteps_alt_ctrl env cfg _
    · have hr : feedbackCallback.replanning env cfg s =
          run env cfg (replan env (updateStart env cfg s).2).2 := by
        simp only [feedbackCallback.replanning, h1, h2, if_true]
        simp
      obtain ⟨l3, hl3⟩ := run_trace env cfg (replan env (updateStart env cfg s).2).2
      rw [Bool.not_eq_true] at h2
      refine ⟨fl, fr, true,
        Event.replan false ::
          Event.plan (env.plan (replan env (updateStart env cfg s).2).2.ivPlanner).1 :: l3,
        ?_, h1.symm, by simp,
        fun _ => ⟨false, _, rfl, h2.symm, fun _ => ⟨_, l3, rfl⟩⟩, ?_⟩
      · rw [hr, hl3, hrt, h2, hu, h1]
        simp
      · rw [hr, ← hrc]
        exact run_ctrl env cfg _
  · have hr : feedbackCallback.replanning env cfg s = (updateStart env cfg s).2 := by
      simp only [feedbackCallback.replanning, h1]
      simp
    rw [Bool.not_eq_true] at h1
    refine ⟨fl, fr, false, [], ?_, h1.symm, by simp, by simp, Or.inl ?_⟩
    · rw [hr, hu, h1]
      simp
    · rw [hr, hctrl]

/-- The cancelGoal calls of a concatenated history. -/
theorem cancelCalls_append (l1 l2 : List Event) :
    cancelCalls (l1 ++ l2) = cancelCalls l1 + cancelCalls l2 := by
  induction l1 with
  | nil => simp [cancelCalls]
  | cons e es ih =>
    cases e <;> simp [cancelCalls, ih]
    omega

/-- C11: feedbackCallback with idx = executed_steps_idx at least ivControlStepIdx + 2
(idx not negative, the planned state and the iterator at idx + ivResetStepIdx within
the path).  The callback looks up the executed foot, cancels the goal, and computes the
footsteps from the executed pose over the path from idx + ivResetStepIdx on.  If all
are feasible it sends exactly one goal holding them, ivResetStepIdx grows by the old
ivControlStepIdx + 1 and ivControlStepIdx becomes 0.  If one is infeasible no goal has
been sent so far and the replanning branch runs: two foot lookups and setStart; on
success replan; when replan fails, run with its plan call.  Every goal sent in this
case is sent after setStart, and ivControlStepIdx is kept or reset to 0. -/
theorem feedbackCallback_two_ahead (fb : ExecFootstepsFeedback) (s : Navigation P)
    (h0 : 0 ≤ executed_steps_idx cfg fb)
    (h2 : s.ivControlStepIdx + 2 ≤ executed_steps_idx cfg fb)
    (hi : 0 ≤ s.ivControlStepIdx + 1 + s.ivResetStepIdx)
    (hr : executed_steps_idx cfg fb + s.ivResetStepIdx ≤
        ((env.getPath s.ivPlanner).length : ℤ)) :
    ∃ (planned : State) (T : Transform) (rs : List StepTarget) (s1 : Navigation P),
      (env.getPath s.ivPlanner)[(s.ivControlStepIdx + 1 + s.ivResetStepIdx).toNat]? =
        some planned ∧
      T = (getFootTransform env (feedbackCallback.foot_id cfg planned) s.ivIdMapFrame
        (env.now s.trace) s).1 ∧
      feedbackCallback env cfg fb s = some s1 ∧
      ((rs.length = ((env.getPath s.ivPlanner).drop
            (executed_steps_idx cfg fb + s.ivResetStepIdx).toNat).length ∧
          clipVerdicts env cfg
            (pathCalls env (poseOfState env (feedbackCallback.executed env planned T))
              ((env.getPath s.ivPlanner).drop
                (executed_steps_idx cfg fb + s.ivResetStepIdx).toNat) rs) =
            List.replicate rs.length true ∧
          s1 = { s with
            ivResetStepIdx := s.ivResetStepIdx + (s.ivControlStepIdx + 1)
            ivControlStepIdx := 0
            trace := s.trace ++
              ([ Event.getFootTransform (feedbackCallback.foot_id cfg planned)
                   s.ivIdMapFrame (env.now s.trace) T,
                 Event.cancelGoal ] ++
                pathCalls env (poseOfState env (feedbackCallback.executed env planned T))
                  ((env.getPath s.ivPlanner).drop
                    (executed_steps_idx cfg fb + s.ivResetStepIdx).toNat) rs ++
                [Event.sendGoal { footsteps := rs, feedback_frequence := 0 }]) } ∧
          sentGoals (callsSince s s1) = [{ footsteps := rs, feedback_frequence := 0 }] ∧
          cancelCalls (callsSince s s1) = 1) ∨
        (0 < rs.length ∧
          rs.length ≤ ((env.getPath s.ivPlanner).drop
            (executed_steps_idx cfg fb + s.ivResetStepIdx).toNat).length ∧
          clipVerdicts env cfg
            (pathCalls env (poseOfState env (feedbackCallback.executed env planned T))
              ((env.getPath s.ivPlanner).drop
                (executed_steps_idx cfg fb + s.ivResetStepIdx).toNat) rs) =
            List.replicate (rs.length - 1) true ++ [false] ∧
          s1 = feedbackCallback.replanning env cfg
            { s with
              trace := s.trace ++
                ([ Event.getFootTransform (feedbackCallback.foot_id cfg planned)
                     s.ivIdMapFrame (env.now s.trace) T,
                   Event.cancelGoal ] ++
                  pathCalls env (poseOfState env (feedbackCallback.executed env planned T))
                    ((env.getPath s.ivPlanner).drop
                      (executed_steps_idx cfg fb + s.ivResetStepIdx).toNat) rs) } ∧
          (∃ (fl fr : Transform) (okStart : Bool) (l : List Event),
            callsSince s s1 =
              [ Event.getFootTransform (feedbackCallback.foot_id cfg planned)
                  s.ivIdMapFrame (env.now s.trace) T,
                Event.cancelGoal ] ++
              pathCalls env (poseOfState env (feedbackCallback.executed env planned T))
                ((env.getPath s.ivPlanner).drop
                  (executed_steps_idx cfg fb + s.ivResetStepIdx).toNat) rs ++
              ([ Event.getFootTransform cfg.ivIdFootLeft s.ivIdMapFrame s.ivLastRobotTime fl,
                 Event.getFootTransform cfg.ivIdFootRight s.ivIdMapFrame s.ivLastRobotTime
                   fr,
                 Event.setStart
                   { x := fl.origin.x, y := fl.origin.y, theta := env.getYaw fl.rotation,
                     leg := Leg.LEFT }
                   { x := fr.origin.x, y := fr.origin.y, theta := env.getYaw fr.rotation,
                     leg := Leg.RIGHT }
                   okStart ] ++ l) ∧
            (okStart = false → l = []) ∧
            (okStart = true → ∃ (okReplan : Bool) (l2 : List Event),
              l = Event.replan okReplan :: l2 ∧
              (okReplan = false → ∃ (okPlan : Bool) (l3 : List Event),
                l2 = Event.plan okPlan :: l3)) ∧
            sentGoals (callsSince s s1) = sentGoals l ∧
            cancelCalls (callsSince s s1) = 1 + cancelCalls l) ∧
          (s1.ivControlStepIdx = s.ivControlStepIdx ∨ s1.ivControlStepIdx = 0))) := by
  have hlt : (s.ivControlStepIdx + 1 + s.ivResetStepIdx).toNat <
      (env.getPath s.ivPlanner).length := by omega
  have hp : (env.getPath s.ivPlanner)[(s.ivControlStepIdx + 1 + s.ivResetStepIdx).toNat]? =
      some ((env.getPath s.ivPlanner).get
        ⟨(s.ivControlStepIdx + 1 + s.ivResetStepIdx).toNat, hlt⟩) :=
    List.getElem?_eq_getElem hlt
  generalize (env.getPath s.ivPlanner).get
    ⟨(s.ivControlStepIdx + 1 + s.ivResetStepIdx).toNat, hlt⟩ = planned at hp
  have hr : 0 ≤ executed_steps_idx cfg fb + s.ivResetStepIdx ∧
      executed_steps_idx cfg fb + s.ivResetStepIdx ≤
        ((env.getPath s.ivPlanner).length : ℤ) := ⟨by omega, hr⟩
  have hfb := feedbackCallback_of_ahead env cfg fb s planned h0 h2 hi hp hr
  have hy : (getFootTransform env (feedbackCallback.foot_id cfg planned) s.ivIdMapFrame
        (env.now s.trace) s).2.emit Event.cancelGoal =
      { s with trace := s.trace ++
        [ Event.getFootTransform (feedbackCallback.foot_id cfg planned) s.ivIdMapFrame
            (env.now s.trace)
            (getFootTransform env (feedbackCallback.foot_id cfg planned) s.ivIdMapFrame
              (env.now s.trace) s).1,
          Event.cancelGoal ] } := by
    simp [getFootTransform, Navigation.emit]
  rw [hy] at hfb
  obtain ⟨rs, hs, hcase⟩ := getFootstepsFromPath.for_loop_spec env cfg
    ((env.getPath s.ivPlanner).drop (executed_steps_idx cfg fb + s.ivResetStepIdx).toNat)
    (poseOfState env (feedbackCallback.executed env planned
      (getFootTransform env (feedbackCallback.foot_id cfg planned) s.ivIdMapFrame
        (env.now s.trace) s).1)) []
    { s with trace := s.trace ++
      [ Event.getFootTransform (feedbackCallback.foot_id cfg planned) s.ivIdMapFrame
          (env.now s.trace)
          (getFootTransform env (feedbackCallback.foot_id cfg planned) s.ivIdMapFrame
            (env.now s.trace) s).1,
        Event.cancelGoal ] }
  have hs2 : (getFootstepsFromPath.loop env cfg
      (poseOfState env (feedbackCallback.executed env planned
        (getFootTransform env (feedbackCallback.foot_id cfg planned) s.ivIdMapFrame
          (env.now s.trace) s).1))
      ((env.getPath s.ivPlanner).drop (executed_steps_idx cfg fb + s.ivResetStepIdx).toNat)
      []
      { s with trace := s.trace ++
        [ Event.getFootTransform (feedbackCallback.foot_id cfg planned) s.ivIdMapFrame
            (env.now s.trace)
            (getFootTransform env (feedbackCallback.foot_id cfg planned) s.ivIdMapFrame
              (env.now s.trace) s).1,
          Event.cancelGoal ] }).2.2 =
      { s with trace := s.trace ++
        ([ Event.getFootTransform (feedbackCallback.foot_id cfg planned) s.ivIdMapFrame
            (env.now s.trace)
            (getFootTransform env (feedbackCallback.foot_id cfg planned) s.ivIdMapFrame
              (env.now s.trace) s).1,
          Event.cancelGoal ] ++
          pathCalls env (poseOfState env (feedbackCallback.executed env planned
            (getFootTransform env (feedbackCallback.foot_id cfg planned) s.ivIdMapFrame
              (env.now s.trace) s).1))
            ((env.getPath s.ivPlanner).drop
              (executed_steps_idx cfg fb + s.ivResetStepIdx).toNat) rs) } := by
    rw [hs]
    simp
  obtain ⟨hsg, hcc, -⟩ := pathCalls_calls env
    ((env.getPath s.ivPlanner).drop (executed_steps_idx cfg fb + s.ivResetStepIdx).toNat)
    (poseOfState env (feedbackCallback.executed env planned
      (getFootTransform env (feedbackCallback.foot_id cfg planned) s.ivIdMapFrame
        (env.now s.trace) s).1)) rs
  rcases hcase with ⟨ht, hl, hf, hver⟩ | ⟨ht, hpos, hl, hver⟩
  · rw [if_pos ht, hf, hs2] at hfb
    refine ⟨planned, _, rs, _, hp, rfl, hfb, Or.inl ⟨hl, by rw [hver, hl], ?_, ?_, ?_⟩⟩
    · simp [Navigation.emit]
    · rw [callsSince_eq s _
        ([ Event.getFootTransform (feedbackCallback.foot_id cfg planned) s.ivIdMapFrame
            (env.now s.trace)
            (getFootTransform env (feedbackCallback.foot_id cfg planned) s.ivIdMapFrame
              (env.now s.trace) s).1,
          Event.cancelGoal ] ++
          pathCalls env (poseOfState env (feedbackCallback.executed env planned
            (getFootTransform env (feedbackCallback.foot_id cfg planned) s.ivIdMapFrame
              (env.now s.trace) s).1))
            ((env.getPath s.ivPlanner).drop
              (executed_steps_idx cfg fb + s.ivResetStepIdx).toNat) rs ++
          [Event.sendGoal { footsteps := rs, feedback_frequence := 0 }])
        (by simp [Navigation.emit])]
      simp [sentGoals_append, sentGoals, hsg]
    · rw [callsSince_eq s _
        ([ Event.getFootTransform (feedbackCallback.foot_id cfg planned) s.ivIdMapFrame
            (env.now s.trace)
            (getFootTransform env (feedbackCallback.foot_id cfg planned) s.ivIdMapFrame
              (env.now s.trace) s).1,
          Event.cancelGoal ] ++
          pathCalls env (poseOfState env (feedbackCallback.executed env planned
            (getFootTransform env (feedbackCallback.foot_id cfg planned) s.ivIdMapFrame
              (env.now s.trace) s).1))
            ((env.getPath s.ivPlanner).drop
              (executed_steps_idx cfg fb + s.ivResetStepIdx).toNat) rs ++
          [Event.sendGoal { footsteps := rs, feedback_frequence := 0 }])
        (by simp [Navigation.emit])]
      simp [cancelCalls_append, cancelCalls, hcc]
  · rw [if_neg (by simp [ht]), hs2] at hfb
    obtain ⟨fl, fr, okStart, l, htr, -, hl0, hl1, hctrl⟩ :=
      feedbackCallback.replanning_branch_spec env cfg
        { s with trace := s.trace ++
          ([ Event.getFootTransform (feedbackCallback.foot_id cfg planned) s.ivIdMapFrame
              (env.now s.trace)
              (getFootTransform env (feedbackCallback.foot_id cfg planned) s.ivIdMapFrame
                (env.now s.trace) s).1,
            Event.cancelGoal ] ++
            pathCalls env (poseOfState env (feedbackCallback.executed env planned
              (getFootTransform env (feedbackCallback.foot_id cfg planned) s.ivIdMapFrame
                (env.now s.trace) s).1))
              ((env.getPath s.ivPlanner).drop
                (executed_steps_idx cfg fb + s.ivResetStepIdx).toNat) rs) }
    have hcalls := callsSince_eq s _ _ (by rw [htr, List.append_assoc])
    refine ⟨planned, _, rs, _, hp, rfl, ?_, Or.inr ⟨hpos, hl, hver, rfl,
      ⟨fl, fr, okStart, l, hcalls, hl0, ?_, ?_, ?_⟩, hctrl⟩⟩
    · rw [hfb]
    · intro hok
      obtain ⟨okReplan, l2, e1, -, e3⟩ := hl1 hok
      exact ⟨okReplan, l2, e1, e3⟩
    · rw [hcalls]
      simp [sentGoals_append, sentGoals, hsg]
    · rw [hcalls]
      simp [cancelCalls_append, cancelCalls, hcc]
      omega

end Deviation

section ShortPath

variable (env : Env P) (cfg : Config)

/-- Witness of C11: four executed footsteps reported to the active example session
(idx = 2, ivControlStepIdx = 0): the callback returns with ivControlStepIdx = 0, having
cancelled once, sent one goal and moved ivResetStepIdx to 1. -/
theorem feedbackCallback_two_ahead_witness :
    (0 ≤ executed_steps_idx exampleCfgAlt (exampleFeedback 4) ∧
      exampleActive.ivControlStepIdx + 2 ≤ executed_steps_idx exampleCfgAlt (exampleFeedback 4)) ∧
    (∃ s1, feedbackCallback (exampleEnv examplePath (fun _ => false) true true true true)
        exampleCfgAlt (exampleFeedback 4) exampleActive = some s1 ∧
      s1.ivControlStepIdx = 0) ∧
    (feedbackCallback (exampleEnv examplePath (fun _ => false) true true true true)
        exampleCfgAlt (exampleFeedback 4) exampleActive).map
      (fun x => (x.ivResetStepIdx, (sentGoals x.trace).length, cancelCalls x.trace)) =
      some (1, 1, 1) := by
  have h0 : 0 ≤ executed_steps_idx exampleCfgAlt (exampleFeedback 4) := by decide!
  have h2 : exampleActive.ivControlStepIdx + 2 ≤
      executed_steps_idx exampleCfgAlt (exampleFeedback 4) := by decide!
  obtain ⟨planned, T, rs, s1, -, -, hfb, h | h⟩ := feedbackCallback_two_ahead
    (exampleEnv examplePath (fun _ => false) true true true true) exampleCfgAlt
    (exampleFeedback 4) exampleActive h0 h2 (by decide!) (by decide!)
  · refine ⟨⟨h0, h2⟩, ⟨s1, hfb, ?_⟩, by decide!⟩
    rw [h.2.2.1]
  · refine ⟨⟨h0, h2⟩, ⟨s1, hfb, ?_⟩, by decide!⟩
    rcases h.2.2.2.2.2 with hc | hc
    · rw [hc]; rfl
    · exact hc

/-- Witness of C12: the example path with a clipping service that accepts every
request: at most one goal is sent, and it is one goal with two footsteps. -/
theorem executeFootsteps_alt_start_witness :
    2 ≤ ((exampleEnv examplePath (fun _ => false) true true true true).getPath
        (exampleNav true).ivPlanner).length ∧
    (sentGoals (callsSince (exampleNav true)
      (executeFootsteps_alt (exampleEnv examplePath (fun _ => false) true true true true)
        exampleCfgAlt (exampleNav true)))).length ≤ 1 ∧
    (sentGoals (callsSince (exampleNav true)
      (executeFootsteps_alt (exampleEnv examplePath (fun _ => false) true true true true)
        exampleCfgAlt (exampleNav true)))).map (fun g => g.footsteps.length) = [2] := by
  have h1 : 2 ≤ ((exampleEnv examplePath (fun _ => false) true true true true).getPath
      (exampleNav true).ivPlanner).length := by decide
  obtain ⟨rs, h | h⟩ := executeFootsteps_alt_start
    (exampleEnv examplePath (fun _ => false) true true true true) exampleCfgAlt
    (exampleNav true) h1
  · refine ⟨h1, ?_, by decide!⟩
    rw [h.2.2.2]
    simp
  · refine ⟨h1, ?_, by decide!⟩
    rw [h.2.2.2.2]
    simp

/-- C13: when plan succeeds with a path of at most one state, run followed by the
selected executor (the thread on executeFootsteps in protective mode, executeFootsteps_alt
called by run otherwise) records the plan call and, in protective mode, the thread start,
and nothing else: no step is dispatched, no goal is sent, and ivExecutingFootsteps stays
set, so goalPoseCallback returns every later goal unprocessed. -/
theorem run_short_path_keeps_lock (s : Navigation P)
    (hplan : (env.plan s.ivPlanner).1 = true)
    (hpath : (env.getPath (env.plan s.ivPlanner).2).length ≤ 1) :
    run_then_executor env cfg s =
      { s with
        ivPlanner := (env.plan s.ivPlanner).2
        ivExecutingFootsteps := true
        trace := s.trace ++
          (Event.plan true ::
            if cfg.ivProtectiveExecution then [Event.thread_executeFootsteps] else []) } ∧
    (run_then_executor env cfg s).ivExecutingFootsteps = true ∧
    dispatched (callsSince s (run_then_executor env cfg s)) = [] ∧
    sentGoals (callsSince s (run_then_executor env cfg s)) = [] ∧
    ∀ goal_pose : PoseStamped,
      goalPoseCallback env cfg goal_pose (run_then_executor env cfg s) =
        run_then_executor env cfg s := by
  have hres : run_then_executor env cfg s =
      { s with
        ivPlanner := (env.plan s.ivPlanner).2
        ivExecutingFootsteps := true
        trace := s.trace ++
          (Event.plan true ::
            if cfg.ivProtectiveExecution then [Event.thread_executeFootsteps] else []) } := by
    by_cases hprot : cfg.ivProtectiveExecution = true
    · have hrun : run env cfg s =
          { s with
            ivPlanner := (env.plan s.ivPlanner).2
            ivExecutingFootsteps := true
            trace := s.trace ++ [Event.plan true, Event.thread_executeFootsteps] } := by
        simp [run, plan, hplan, hprot, Navigation.emit]
      have hexec : executeFootsteps env cfg (run env cfg s) = run env cfg s := by
        rw [hrun]
        simp [executeFootsteps, hpath]
      simp only [run_then_executor, hplan, hprot, Bool.and_self, if_true]
      rw [hexec, hrun]
    · have hrun : run env cfg s =
          { s with
            ivPlanner := (env.plan s.ivPlanner).2
            ivExecutingFootsteps := true
            trace := s.trace ++ [Event.plan true] } := by
        simp [run, plan, hplan, hprot, Navigation.emit, executeFootsteps_alt, hpath]
      simp only [run_then_executor, hplan, hprot, Bool.and_false, if_false]
      rw [hrun]
      simp [hprot]
  have hcalls := callsSince_eq s (run_then_executor env cfg s) _ (by rw [hres])
  refine ⟨hres, by rw [hres], ?_, ?_, ?_⟩
  · rw [hcalls]
    split <;> simp [dispatched]
  · rw [hcalls]
    split <;> simp [sentGoals]
  · intro goal_pose
    have hlock : (run_then_executor env cfg s).ivExecutingFootsteps = true := by rw [hres]
    simp [goalPoseCallback, hlock]

/-- Witness of C13: a planner whose plan succeeds with a path of one state, in
protective mode: the lock stays set and a later goal is returned unprocessed. -/
theorem run_short_path_keeps_lock_witness :
    ((exampleEnv [{ x := 0, y := 0, theta := 0, leg := Leg.RIGHT }] (fun _ => false)
        true true true true).plan (exampleNav false).ivPlanner).1 = true ∧
    (run_then_executor
      (exampleEnv [{ x := 0, y := 0, theta := 0, leg := Leg.RIGHT }] (fun _ => false)
        true true true true) exampleCfg (exampleNav false)).ivExecutingFootsteps = true ∧
    goalPoseCallback
      (exampleEnv [{ x := 0, y := 0, theta := 0, leg := Leg.RIGHT }] (fun _ => false)
        true true true true) exampleCfg exampleGoal
      (run_then_executor
        (exampleEnv [{ x := 0, y := 0, theta := 0, leg := Leg.RIGHT }] (fun _ => false)
          true true true true) exampleCfg (exampleNav false)) =
      run_then_executor
        (exampleEnv [{ x := 0, y := 0, theta := 0, leg := Leg.RIGHT }] (fun _ => false)
          true true true true) exampleCfg (exampleNav false) := by
  obtain ⟨-, hlock, -, -, hgoal⟩ := run_short_path_keeps_lock
    (exampleEnv [{ x := 0, y := 0, theta := 0, leg := Leg.RIGHT }] (fun _ => false)
      true true true true) exampleCfg (exampleNav false) rfl (by decide)
  exact ⟨rfl, hlock, hgoal exampleGoal⟩

end ShortPath

end footstep_planner
